import Mathlib

/-!
Find Me profile firmware: the attribute store and the event handlers.

A shallow embedding of the GATT attribute store of the Find Me peripheral and of
its handlers of stack events (`app_bt_event_handler.c`, `app_gatts.c`), with
proofs about the bounded read and write operations and about the tracking of
the advertising and connection state.

Conventions of the embedding:

* C unsigned integers are natural numbers.  `uint16_t` operands of `-`, `<`, `>`
  and `>=` are promoted to the 32-bit `int` of the target before the operation,
  so these operations are carried out in `Int` and never wrap.
* A conversion to a narrower type is an explicit `%`.  The only one in the code
  is the `uint8_t offset` parameter of `app_bt_read_handle_value`, which
  `app_gatt_req_event` calls with a `uint16_t` argument.
* A pointer into the attribute table is the index of the entry, returned
  together with the entry it points to.
* Global variables are the fields of `app_globals`; a function that can write
  them returns the new globals.
* Calls to functions outside the sources (the user interface, the stack) are
  recorded, in order; a call to the user interface is recorded together with
  the globals the callee can observe when it is called.
* `WICED_BT_TRACE` logging is left out.
-/

namespace FindMe

/-! ## Data model -/

/-- Status codes of `wiced_bt_gatt_status_e` used by the application. -/
inductive wiced_bt_gatt_status_t where
  | WICED_BT_GATT_SUCCESS
  | WICED_BT_GATT_INVALID_HANDLE
  | WICED_BT_GATT_INVALID_OFFSET
  | WICED_BT_GATT_INVALID_ATTR_LEN
  | WICED_BT_GATT_ERROR
  deriving DecidableEq, Repr

open wiced_bt_gatt_status_t

/-- The combined advertising and connection mode (`app_bt_event_handler.h`). -/
inductive app_bt_adv_conn_mode_t where
  | APP_BT_ADV_OFF_CONN_OFF
  | APP_BT_ADV_ON_CONN_OFF
  | APP_BT_ADV_OFF_CONN_ON
  deriving DecidableEq, Repr

/-- Modelled from the spec: the record type `gatt_db_lookup_table_t` is declared in
`cycfg_gatt_db.h`, which is not among the sources.  A record has a 16-bit
`handle`, a capacity `max_len`, a current length `cur_len` and the buffer
`p_data` points to; the buffer is owned by the record and is given by its
contents, one natural number per byte. -/
structure gatt_db_lookup_table_t where
  handle : Nat
  max_len : Nat
  cur_len : Nat
  p_data : List Nat
  deriving DecidableEq, Repr

/-- Modelled from the spec: the handle of the alert level value, the constant
`HDLC_IAS_ALERT_LEVEL_VALUE` of `cycfg_gatt_db.h`, is `0x002A`. -/
def HDLC_IAS_ALERT_LEVEL_VALUE : Nat := 0x002A

/-- The global variables of the application: the attribute table
`app_gatt_db_ext_attr_tbl` (its length is `app_gatt_db_ext_attr_tbl_size`),
`bt_connection_id` and `app_bt_adv_conn_state`. -/
structure app_globals where
  app_gatt_db_ext_attr_tbl : List gatt_db_lookup_table_t
  bt_connection_id : Nat
  app_bt_adv_conn_state : app_bt_adv_conn_mode_t
  deriving DecidableEq, Repr

/-- The result codes of `wiced_result_t` the application distinguishes: success,
and every other code as a failure. -/
inductive wiced_result_t where
  | WICED_BT_SUCCESS
  | failure (code : Nat)
  deriving DecidableEq, Repr

/-- The advertising modes of `wiced_bt_ble_advert_mode_t` the application names;
every other mode is `other` with its code. -/
inductive wiced_bt_ble_advert_mode_t where
  | BTM_BLE_ADVERT_OFF
  | BTM_BLE_ADVERT_UNDIRECTED_HIGH
  | other (code : Nat)
  deriving DecidableEq, Repr

/-- The type code `BTM_BLE_ADVERT_TYPE_FLAG` of an advertisement element. -/
def BTM_BLE_ADVERT_TYPE_FLAG : Nat := 0x01

/-- The type code `BTM_BLE_ADVERT_TYPE_NAME_COMPLETE` of an advertisement element. -/
def BTM_BLE_ADVERT_TYPE_NAME_COMPLETE : Nat := 0x09

/-- The type code `BTM_BLE_ADVERT_TYPE_APPEARANCE` of an advertisement element. -/
def BTM_BLE_ADVERT_TYPE_APPEARANCE : Nat := 0x19

/-- The flag `BTM_BLE_GENERAL_DISCOVERABLE_FLAG`, bit 1. -/
def BTM_BLE_GENERAL_DISCOVERABLE_FLAG : Nat := 0x02

/-- The flag `BTM_BLE_BREDR_NOT_SUPPORTED`, bit 2. -/
def BTM_BLE_BREDR_NOT_SUPPORTED : Nat := 0x04

/-- The appearance value `APPEARANCE_GENERIC_KEYRING`. -/
def APPEARANCE_GENERIC_KEYRING : Nat := 576

/-- The bytes of the macro `BIT16_TO_8`: the low byte, then the high byte. -/
def BIT16_TO_8 (val : Nat) : List Nat := [val % 256, (val / 256) % 256]

/-- An advertisement element `wiced_bt_ble_advert_elem_t`: its type code, its length
and the bytes `p_data` points to. -/
structure wiced_bt_ble_advert_elem_t where
  advert_type : Nat
  len : Nat
  p_data : List Nat
  deriving DecidableEq, Repr

/-- The callbacks the application registers with the stack, by name. -/
inductive app_callback_t where
  | app_bt_management_callback
  | app_gatt_event_callback
  deriving DecidableEq, Repr

/-- A call to a function outside the sources.  The functions of the user interface
(`app_user_interface.h`) are called without arguments and read the globals, so
their calls carry the globals at the moment of the call; the functions of the
stack carry their arguments, a `NULL` pointer being `none`.

Modelled from the spec: the file `app_user_interface.c` is not among the sources;
the calls to it are one-way notifications that leave the globals as they are. -/
inductive app_call where
  | ias_led_update (seen : app_globals)
  | adv_led_update (seen : app_globals)
  | app_user_interface_init (seen : app_globals)
  | wiced_bt_dev_read_local_addr
  | wiced_bt_set_pairable_mode (allow_pairing : Bool) (connect_only_paired : Nat)
  | wiced_bt_ble_set_raw_advertisement_data (num_elem : Nat)
      (p_data : List wiced_bt_ble_advert_elem_t)
  | wiced_bt_gatt_register (p_gatt_cback : app_callback_t)
  | wiced_bt_gatt_db_init (p_gatt_db : List Nat) (gatt_db_size : Nat)
  | wiced_bt_start_advertisements (advert_mode : wiced_bt_ble_advert_mode_t)
      (directed_advertisement_bdaddr_type : Nat)
      (directed_advertisement_bdaddr_ptr : Option (List Nat))
  deriving DecidableEq, Repr

/-! ## Library: `memcpy` -/

/-- The call `memcpy(dst + d, src + s, n)`: byte `s + k` of `src` is stored at
position `d + k` of `dst`, for `k = 0 .. n - 1`.  The buffers are those the
pointers point into.  An access outside a buffer is undefined in C: here a
store outside `dst` is dropped and a load outside `src` yields `0`; the
theorems about copied bytes assume the buffers are large enough. -/
def memcpy (dst : List Nat) (d : Nat) (src : List Nat) (s : Nat) : Nat → List Nat
  | 0 => dst
  | n + 1 => (memcpy dst d src s n).set (d + n) (src.getD (s + n) 0)

/-! ## Attribute store -/

/-- The loop of `app_get_attribute`, started at index `i` with the entries from
`i` on still to be examined. -/
def app_get_attribute_loop (handle : Nat) :
    List gatt_db_lookup_table_t → Nat → Option (Nat × gatt_db_lookup_table_t)
  | [], _ => none
  | e :: rest, i =>
    if e.handle = handle then some (i, e)
    else app_get_attribute_loop handle rest (i + 1)

/-- The function `app_get_attribute`: the first entry of the table with the given
handle, as its index and the entry, or `none` for `NULL`. -/
def app_get_attribute (tbl : List gatt_db_lookup_table_t) (handle : Nat) :
    Option (Nat × gatt_db_lookup_table_t) :=
  app_get_attribute_loop handle tbl 0

/-- Modelled from the spec: the array `app_ias_alert_level` is defined in
`cycfg_gatt_db.c`, which is not among the sources; it is the buffer of the
record with the alert level handle. -/
def app_ias_alert_level (g : app_globals) : List Nat :=
  match app_get_attribute g.app_gatt_db_ext_attr_tbl HDLC_IAS_ALERT_LEVEL_VALUE with
  | some (_, r) => r.p_data
  | none => []

/-- What `app_bt_write_handle_value` returns and leaves behind. -/
structure write_outcome where
  res : wiced_bt_gatt_status_t
  globals : app_globals
  calls : List app_call
  deriving DecidableEq, Repr

/-- The function `app_bt_write_handle_value(handle, offset, p_val, len)` run on
the globals `g`. -/
def app_bt_write_handle_value (g : app_globals) (handle offset : Nat)
    (p_val : List Nat) (len : Nat) : write_outcome :=
  match app_get_attribute g.app_gatt_db_ext_attr_tbl handle with
  | some (i, p_attribute) =>
    if (p_attribute.max_len : Int) - (offset : Int) ≥ (len : Int) then
      let g1 : app_globals :=
        { g with
          app_gatt_db_ext_attr_tbl :=
            g.app_gatt_db_ext_attr_tbl.set i
              { p_attribute with p_data := memcpy p_attribute.p_data offset p_val 0 len } }
      if handle = HDLC_IAS_ALERT_LEVEL_VALUE then
        { res := WICED_BT_GATT_SUCCESS, globals := g1, calls := [app_call.ias_led_update g1] }
      else
        { res := WICED_BT_GATT_SUCCESS, globals := g1, calls := [] }
    else
      { res := WICED_BT_GATT_INVALID_ATTR_LEN, globals := g, calls := [] }
  | none =>
    { res := WICED_BT_GATT_INVALID_HANDLE, globals := g, calls := [] }

/-- What `app_bt_read_handle_value` returns and leaves behind: the status, the
caller's buffer `buff`, the length `*p_len`, the globals and the calls made. -/
structure read_outcome where
  res : wiced_bt_gatt_status_t
  buff : List Nat
  p_len : Nat
  globals : app_globals
  calls : List app_call
  deriving DecidableEq, Repr

/-- The function `app_bt_read_handle_value(handle, offset, buff, p_len)` run on
the globals `g`; `p_len` is the value `*p_len` on entry.  The parameter
`offset` has type `uint8_t`, so the argument is reduced modulo 256.  The value
`max_len - offset` stored to `*p_len` is positive on that branch, so the
subtraction of natural numbers is exact. -/
def app_bt_read_handle_value (g : app_globals) (handle offset : Nat)
    (buff : List Nat) (p_len : Nat) : read_outcome :=
  let offset := offset % 256
  match app_get_attribute g.app_gatt_db_ext_attr_tbl handle with
  | some (_, p_attribute) =>
    if offset < p_attribute.max_len then
      let p_len :=
        if (p_len : Int) > (p_attribute.max_len : Int) - (offset : Int) then
          p_attribute.max_len - offset
        else p_len
      { res := WICED_BT_GATT_SUCCESS,
        buff := memcpy buff 0 p_attribute.p_data offset p_len,
        p_len := p_len, globals := g, calls := [] }
    else
      { res := WICED_BT_GATT_INVALID_OFFSET, buff := buff, p_len := p_len,
        globals := g, calls := [] }
  | none =>
    { res := WICED_BT_GATT_INVALID_HANDLE, buff := buff, p_len := p_len,
      globals := g, calls := [] }

/-! ## Request dispatch -/

/-- The request types of `wiced_bt_gatt_request_type_t` that `app_gatt_req_event`
distinguishes; every other type is `other` with its code. -/
inductive wiced_bt_gatt_request_type_t where
  | GATTS_REQ_TYPE_READ
  | GATTS_REQ_TYPE_WRITE
  | other (code : Nat)
  deriving DecidableEq, Repr

/-- The read view `read_req` of the request data, with the fields the code uses:
the 16-bit `handle` and `offset`, `p_val_len`, the value the pointer of that
name points to, and `p_val`, the buffer. -/
structure wiced_bt_gatt_read_t where
  handle : Nat
  offset : Nat
  p_val_len : Nat
  p_val : List Nat
  deriving DecidableEq, Repr

/-- The write view `write_req` of the request data, with the fields the code uses:
the 16-bit `handle`, `offset` and `val_len`, and the payload `p_val`. -/
structure wiced_bt_gatt_write_t where
  handle : Nat
  offset : Nat
  val_len : Nat
  p_val : List Nat
  deriving DecidableEq, Repr

/-- The request data `wiced_bt_gatt_request_data_t`, a union in C, given by the
two views the code reads; the code reads the view that goes with the type. -/
structure wiced_bt_gatt_request_data_t where
  read_req : wiced_bt_gatt_read_t
  write_req : wiced_bt_gatt_write_t
  deriving DecidableEq, Repr

/-- What `app_gatt_req_event` returns and leaves behind; `p_data` is the request
data after the call, with the read buffer and length as the call left them. -/
structure req_outcome where
  res : wiced_bt_gatt_status_t
  p_data : wiced_bt_gatt_request_data_t
  globals : app_globals
  calls : List app_call
  deriving DecidableEq, Repr

/-- The function `app_gatt_req_event(conn_id, type, p_data)` run on the globals
`g`. -/
def app_gatt_req_event (g : app_globals) (_conn_id : Nat)
    (type : wiced_bt_gatt_request_type_t) (p_data : wiced_bt_gatt_request_data_t) :
    req_outcome :=
  match type with
  | .GATTS_REQ_TYPE_READ =>
    let r := app_bt_read_handle_value g p_data.read_req.handle p_data.read_req.offset
      p_data.read_req.p_val p_data.read_req.p_val_len
    { res := r.res,
      p_data := { p_data with
        read_req := { p_data.read_req with p_val := r.buff, p_val_len := r.p_len } },
      globals := r.globals, calls := r.calls }
  | .GATTS_REQ_TYPE_WRITE =>
    let w := app_bt_write_handle_value g p_data.write_req.handle p_data.write_req.offset
      p_data.write_req.p_val p_data.write_req.val_len
    { res := w.res, p_data := p_data, globals := w.globals, calls := w.calls }
  | .other _ =>
    { res := WICED_BT_GATT_ERROR, p_data := p_data, globals := g, calls := [] }

/-! ## Connection status -/

/-- The connection status `wiced_bt_gatt_connection_status_t`, with the fields the
code reads: the peer address `bd_addr` and the `reason` (both only logged), the
connection id `conn_id` and the flag `connected`. -/
structure wiced_bt_gatt_connection_status_t where
  bd_addr : List Nat
  conn_id : Nat
  connected : Bool
  reason : Nat
  deriving DecidableEq, Repr

/-- What `app_bt_event_connect` returns and leaves behind. -/
structure connect_outcome where
  res : wiced_bt_gatt_status_t
  globals : app_globals
  calls : List app_call
  deriving DecidableEq, Repr

/-- The function `app_bt_event_connect(p_conn_status)` run on the globals `g`; a
`NULL` pointer is `none`. -/
def app_bt_event_connect (g : app_globals)
    (p_conn_status : Option wiced_bt_gatt_connection_status_t) : connect_outcome :=
  match p_conn_status with
  | some conn_status =>
    if conn_status.connected then
      let g1 : app_globals := { g with bt_connection_id := conn_status.conn_id }
      let g2 : app_globals :=
        { g1 with app_bt_adv_conn_state := .APP_BT_ADV_OFF_CONN_ON }
      { res := WICED_BT_GATT_SUCCESS, globals := g2,
        calls := [app_call.adv_led_update g2] }
    else
      let g1 : app_globals := { g with bt_connection_id := 0 }
      let g2 : app_globals :=
        { g1 with app_bt_adv_conn_state := .APP_BT_ADV_ON_CONN_OFF }
      { res := WICED_BT_GATT_SUCCESS, globals := g2,
        calls :=
          [app_call.wiced_bt_start_advertisements .BTM_BLE_ADVERT_UNDIRECTED_HIGH 0 none,
            app_call.ias_led_update g2,
            app_call.adv_led_update g2] }
  | none =>
    { res := WICED_BT_GATT_ERROR, globals := g, calls := [] }

/-! ## GATT events -/

/-- The event codes of `wiced_bt_gatt_evt_t` that `app_gatt_event_callback`
distinguishes; every other event is `other` with its code. -/
inductive wiced_bt_gatt_evt_t where
  | GATT_CONNECTION_STATUS_EVT
  | GATT_ATTRIBUTE_REQUEST_EVT
  | other (code : Nat)
  deriving DecidableEq, Repr

/-- The attribute request `wiced_bt_gatt_attribute_request_t`. -/
structure wiced_bt_gatt_attribute_request_t where
  conn_id : Nat
  request_type : wiced_bt_gatt_request_type_t
  data : wiced_bt_gatt_request_data_t
  deriving DecidableEq, Repr

/-- The event data `wiced_bt_gatt_event_data_t`, a union in C, given by the two
views the code reads; the code reads the view that goes with the event. -/
structure wiced_bt_gatt_event_data_t where
  connection_status : wiced_bt_gatt_connection_status_t
  attribute_request : wiced_bt_gatt_attribute_request_t
  deriving DecidableEq, Repr

/-- What `app_gatt_event_callback` returns and leaves behind; `p_event_data` is the
event data after the call. -/
structure gatt_event_outcome where
  res : wiced_bt_gatt_status_t
  p_event_data : wiced_bt_gatt_event_data_t
  globals : app_globals
  calls : List app_call
  deriving DecidableEq, Repr

/-- The function `app_gatt_event_callback(event, p_event_data)` run on the globals
`g`.  The address of the view `connection_status` is never `NULL`. -/
def app_gatt_event_callback (g : app_globals) (event : wiced_bt_gatt_evt_t)
    (p_event_data : wiced_bt_gatt_event_data_t) : gatt_event_outcome :=
  match event with
  | .GATT_CONNECTION_STATUS_EVT =>
    let c := app_bt_event_connect g (some p_event_data.connection_status)
    { res := c.res, p_event_data := p_event_data, globals := c.globals, calls := c.calls }
  | .GATT_ATTRIBUTE_REQUEST_EVT =>
    let p_attr_req := p_event_data.attribute_request
    let r := app_gatt_req_event g p_attr_req.conn_id p_attr_req.request_type p_attr_req.data
    { res := r.res,
      p_event_data :=
        { p_event_data with attribute_request := { p_attr_req with data := r.p_data } },
      globals := r.globals, calls := r.calls }
  | .other _ =>
    { res := WICED_BT_GATT_SUCCESS, p_event_data := p_event_data, globals := g, calls := [] }

/-! ## Management events -/

/-- The constants of the configuration files `cycfg_gatt_db.c` and `app_bt_cfg.c`,
which are not among the sources, that the initialization passes to the stack:
the GATT database and its length, and the device name and its length. -/
structure app_config where
  gatt_database : List Nat
  gatt_database_len : Nat
  app_gap_device_name : List Nat
  app_gap_device_name_len : Nat
  deriving DecidableEq, Repr

/-- The function `ble_app_set_advertisement_data`: the three elements, in the
order they are stored in `adv_elem`, and the call that submits them. -/
def ble_app_set_advertisement_data (cfg : app_config) : List app_call :=
  let adv_flag : Nat :=
    (BTM_BLE_GENERAL_DISCOVERABLE_FLAG ||| BTM_BLE_BREDR_NOT_SUPPORTED) % 256
  let adv_appearance : List Nat := BIT16_TO_8 APPEARANCE_GENERIC_KEYRING
  let adv_elem : List wiced_bt_ble_advert_elem_t :=
    [{ advert_type := BTM_BLE_ADVERT_TYPE_FLAG, len := 1, p_data := [adv_flag] },
      { advert_type := BTM_BLE_ADVERT_TYPE_NAME_COMPLETE, len := cfg.app_gap_device_name_len,
        p_data := cfg.app_gap_device_name },
      { advert_type := BTM_BLE_ADVERT_TYPE_APPEARANCE, len := adv_appearance.length,
        p_data := adv_appearance }]
  [app_call.wiced_bt_ble_set_raw_advertisement_data 3 adv_elem]

/-- The function `ble_app_init`, which writes no global: the calls it makes. -/
def ble_app_init (cfg : app_config) (g : app_globals) : List app_call :=
  [app_call.app_user_interface_init g,
    app_call.wiced_bt_set_pairable_mode false 0] ++
  ble_app_set_advertisement_data cfg ++
  [app_call.wiced_bt_gatt_register .app_gatt_event_callback,
    app_call.wiced_bt_gatt_db_init cfg.gatt_database cfg.gatt_database_len,
    app_call.wiced_bt_start_advertisements .BTM_BLE_ADVERT_UNDIRECTED_HIGH 0 none]

/-- The event codes of `wiced_bt_management_evt_t` that
`app_bt_management_callback` distinguishes; every other event is `other` with
its code. -/
inductive wiced_bt_management_evt_t where
  | BTM_ENABLED_EVT
  | BTM_BLE_ADVERT_STATE_CHANGED_EVT
  | other (code : Nat)
  deriving DecidableEq, Repr

/-- The event data `wiced_bt_management_evt_data_t`, a union in C, given by the two
views the code reads: `enabled.status` and `ble_advert_state_changed`.  The
pointer to it is read with the two events that have these views only. -/
structure wiced_bt_management_evt_data_t where
  enabled_status : wiced_result_t
  ble_advert_state_changed : wiced_bt_ble_advert_mode_t
  deriving DecidableEq, Repr

/-- What `app_bt_management_callback` returns and leaves behind. -/
structure management_outcome where
  status : wiced_result_t
  globals : app_globals
  calls : List app_call
  deriving DecidableEq, Repr

/-- The function `app_bt_management_callback(event, p_event_data)` run on the
globals `g`. -/
def app_bt_management_callback (cfg : app_config) (g : app_globals)
    (event : wiced_bt_management_evt_t) (p_event_data : wiced_bt_management_evt_data_t) :
    management_outcome :=
  match event with
  | .BTM_ENABLED_EVT =>
    if p_event_data.enabled_status = .WICED_BT_SUCCESS then
      { status := .WICED_BT_SUCCESS, globals := g,
        calls := app_call.wiced_bt_dev_read_local_addr :: ble_app_init cfg g }
    else
      { status := .WICED_BT_SUCCESS, globals := g, calls := [] }
  | .BTM_BLE_ADVERT_STATE_CHANGED_EVT =>
    let p_adv_mode := p_event_data.ble_advert_state_changed
    let g1 : app_globals :=
      if p_adv_mode = .BTM_BLE_ADVERT_OFF then
        if g.bt_connection_id = 0 then
          { g with app_bt_adv_conn_state := .APP_BT_ADV_OFF_CONN_OFF }
        else
          { g with app_bt_adv_conn_state := .APP_BT_ADV_OFF_CONN_ON }
      else
        { g with app_bt_adv_conn_state := .APP_BT_ADV_ON_CONN_OFF }
    { status := .WICED_BT_SUCCESS, globals := g1, calls := [app_call.adv_led_update g1] }
  | .other _ =>
    { status := .WICED_BT_SUCCESS, globals := g, calls := [] }

/-! ## Runs of events -/

/-- An event the stack delivers to the application, through one of the two
callbacks it has registered. -/
inductive stack_event where
  | management (event : wiced_bt_management_evt_t)
      (p_event_data : wiced_bt_management_evt_data_t)
  | gatt (event : wiced_bt_gatt_evt_t) (p_event_data : wiced_bt_gatt_event_data_t)
  deriving DecidableEq, Repr

/-- The globals after the callback for the event has run. -/
def app_step (cfg : app_config) (g : app_globals) : stack_event → app_globals
  | .management event p_event_data =>
    (app_bt_management_callback cfg g event p_event_data).globals
  | .gatt event p_event_data => (app_gatt_event_callback g event p_event_data).globals

/-- The globals after the callbacks for the events have run, one after the other. -/
def app_run (cfg : app_config) (g : app_globals) : List stack_event → app_globals
  | [] => g
  | e :: rest => app_run cfg (app_step cfg g e) rest

/-- The globals at start-up: the initializers of `bt_connection_id` and
`app_bt_adv_conn_state`, and the table as configured. -/
def app_initial (tbl : List gatt_db_lookup_table_t) : app_globals :=
  { app_gatt_db_ext_attr_tbl := tbl, bt_connection_id := 0,
    app_bt_adv_conn_state := .APP_BT_ADV_OFF_CONN_OFF }

/-- The event reports that advertising has started (its mode is not
`BTM_BLE_ADVERT_OFF`). -/
def is_adv_started : stack_event → Bool
  | .management .BTM_BLE_ADVERT_STATE_CHANGED_EVT p_event_data =>
    decide (p_event_data.ble_advert_state_changed ≠ .BTM_BLE_ADVERT_OFF)
  | _ => false

/-- In the run of the events from `g`, every event that reports that advertising
has started arrives while `bt_connection_id` is 0. -/
def adv_started_only_unconnected (cfg : app_config) (g : app_globals) :
    List stack_event → Bool
  | [] => true
  | e :: rest =>
    (!(is_adv_started e) || decide (g.bt_connection_id = 0)) &&
      adv_started_only_unconnected cfg (app_step cfg g e) rest

/-- The call is a call of `adv_led_update`. -/
def is_adv_led_update : app_call → Bool
  | .adv_led_update _ => true
  | _ => false

/-- The call is a call of `ias_led_update`. -/
def is_ias_led_update : app_call → Bool
  | .ias_led_update _ => true
  | _ => false

/-- The call is a call of `wiced_bt_start_advertisements`. -/
def is_start_advertisements : app_call → Bool
  | .wiced_bt_start_advertisements _ _ _ => true
  | _ => false

/-! ## Positions accessed in the buffers -/

/-- The positions of `dst` that the call `memcpy(dst + d, src + s, n)` stores to. -/
def memcpy_stores (d n : Nat) : List Nat := List.range' d n

/-- The positions of `src` that the call `memcpy(dst + d, src + s, n)` loads from. -/
def memcpy_loads (s n : Nat) : List Nat := List.range' s n

/-- The positions of the buffer of the record that `app_bt_write_handle_value`
stores to: those of its call of `memcpy`, on the branch that makes the call. -/
def app_bt_write_handle_value_stores (g : app_globals) (handle offset len : Nat) :
    List Nat :=
  match app_get_attribute g.app_gatt_db_ext_attr_tbl handle with
  | some (_, p_attribute) =>
    if (p_attribute.max_len : Int) - (offset : Int) ≥ (len : Int) then
      memcpy_stores offset len
    else []
  | none => []

/-- The positions of the buffer of the record that `app_bt_read_handle_value` loads
from: those of its call of `memcpy`, on the branch that makes the call. -/
def app_bt_read_handle_value_loads (g : app_globals) (handle offset p_len : Nat) :
    List Nat :=
  let offset := offset % 256
  match app_get_attribute g.app_gatt_db_ext_attr_tbl handle with
  | some (_, p_attribute) =>
    if offset < p_attribute.max_len then
      let p_len :=
        if (p_len : Int) > (p_attribute.max_len : Int) - (offset : Int) then
          p_attribute.max_len - offset
        else p_len
      memcpy_loads offset p_len
    else []
  | none => []

/-! ## Connected events -/

/-- The event reports a connection with the connection id 0. -/
def is_connected_with_id_0 : stack_event → Bool
  | .gatt .GATT_CONNECTION_STATUS_EVT p_event_data =>
    p_event_data.connection_status.connected &&
      decide (p_event_data.connection_status.conn_id = 0)
  | _ => false

/-- Every event of the list that reports a connection carries a connection id
other than 0. -/
def connected_ids_nonzero (events : List stack_event) : Bool :=
  events.all fun e => !(is_connected_with_id_0 e)

/-! ## Example tables -/

/-- The record of the alert level: handle `0x002A`, capacity 1, holding `b`. -/
def alert_record (cur_len b : Nat) : gatt_db_lookup_table_t :=
  { handle := 0x002A, max_len := 1, cur_len := cur_len, p_data := [b] }

/-- Globals whose table has exactly one record, that of the alert level. -/
def alert_globals (cur_len b conn_id : Nat) (mode : app_bt_adv_conn_mode_t) : app_globals :=
  { app_gatt_db_ext_attr_tbl := [alert_record cur_len b],
    bt_connection_id := conn_id,
    app_bt_adv_conn_state := mode }

/-- A record of capacity 257 with handle 3, holding `1` at position 0 and `0`
elsewhere. -/
def wide_record : gatt_db_lookup_table_t :=
  { handle := 3, max_len := 257, cur_len := 257, p_data := 1 :: List.replicate 256 0 }

/-- Globals whose table holds the alert level record and the wide record. -/
def wide_globals : app_globals :=
  { app_gatt_db_ext_attr_tbl := [alert_record 1 0, wide_record],
    bt_connection_id := 1,
    app_bt_adv_conn_state := .APP_BT_ADV_OFF_CONN_ON }

/-- A read request for `len` bytes of the attribute `handle` at `offset`, with an
output buffer `buff`; the write view is not used by a read. -/
def read_request (handle offset len : Nat) (buff : List Nat) : wiced_bt_gatt_request_data_t :=
  { read_req := { handle := handle, offset := offset, p_val_len := len, p_val := buff },
    write_req := { handle := 0, offset := 0, val_len := 0, p_val := [] } }

/-- A write request of the payload `p_val` to the attribute `handle` at `offset`;
the read view is not used by a write. -/
def write_request (handle offset : Nat) (p_val : List Nat) : wiced_bt_gatt_request_data_t :=
  { read_req := { handle := 0, offset := 0, p_val_len := 0, p_val := [] },
    write_req := { handle := handle, offset := offset, val_len := p_val.length,
                   p_val := p_val } }

/-! ## Example events -/

/-- A configuration with an empty database and the device name `Find`. -/
def example_config : app_config :=
  { gatt_database := [], gatt_database_len := 0,
    app_gap_device_name := [70, 105, 110, 100], app_gap_device_name_len := 4 }

/-- A connection status for the connection id `conn_id`. -/
def connection_status_of (conn_id : Nat) (connected : Bool) :
    wiced_bt_gatt_connection_status_t :=
  { bd_addr := [1, 2, 3, 4, 5, 6], conn_id := conn_id, connected := connected, reason := 0 }

/-- The data of an advertising-state-changed event with the given mode. -/
def advert_state_of (mode : wiced_bt_ble_advert_mode_t) : wiced_bt_management_evt_data_t :=
  { enabled_status := .WICED_BT_SUCCESS, ble_advert_state_changed := mode }

/-- The data of a GATT event with the given connection status, and with the given
type in the request view. -/
def gatt_event_data_of (status : wiced_bt_gatt_connection_status_t)
    (type : wiced_bt_gatt_request_type_t) : wiced_bt_gatt_event_data_t :=
  { connection_status := status,
    attribute_request := { conn_id := status.conn_id, request_type := type,
                           data := read_request 0x002A 0 1 [9] } }

/-! ## Properties of `memcpy` -/

theorem length_memcpy (dst : List Nat) (d : Nat) (src : List Nat) (s n : Nat) :
    (memcpy dst d src s n).length = dst.length := by
  induction n with
  | zero => rfl
  | succ n ih => simp [memcpy, ih]

theorem getElem?_memcpy (dst : List Nat) (d : Nat) (src : List Nat) (s n i : Nat) :
    (memcpy dst d src s n)[i]? =
      if d ≤ i ∧ i < d + n ∧ i < dst.length then some (src.getD (s + (i - d)) 0)
      else dst[i]? := by
  induction n with
  | zero =>
    have h : ¬ (d ≤ i ∧ i < d + 0 ∧ i < dst.length) := by omega
    rw [if_neg h]; rfl
  | succ n ih =>
    simp only [memcpy, List.getElem?_set, length_memcpy]
    by_cases hi : d + n = i
    · subst hi
      by_cases hlen : d + n < dst.length
      · have h : d ≤ d + n ∧ d + n < d + (n + 1) ∧ d + n < dst.length := by omega
        simp [hlen, h]
      · have h : ¬ (d ≤ d + n ∧ d + n < d + (n + 1) ∧ d + n < dst.length) := by omega
        have h2 : dst[d + n]? = none := List.getElem?_eq_none (by omega)
        simp [hlen, h, h2]
    · rw [if_neg hi, ih]
      by_cases h : d ≤ i ∧ i < d + n ∧ i < dst.length
      · have h2 : d ≤ i ∧ i < d + (n + 1) ∧ i < dst.length := by omega
        rw [if_pos h, if_pos h2]
      · have h2 : ¬ (d ≤ i ∧ i < d + (n + 1) ∧ i < dst.length) := by omega
        rw [if_neg h, if_neg h2]

theorem getElem?_memcpy_copied (dst : List Nat) (d : Nat) (src : List Nat) (s n k : Nat)
    (hk : k < n) (hdst : d + n ≤ dst.length) (hsrc : s + n ≤ src.length) :
    (memcpy dst d src s n)[d + k]? = src[s + k]? := by
  rw [getElem?_memcpy]
  have h : d ≤ d + k ∧ d + k < d + n ∧ d + k < dst.length := by omega
  have hs : s + k < src.length := by omega
  rw [if_pos h, List.getD_eq_getElem?_getD]
  have e : d + k - d = k := by omega
  rw [e, List.getElem?_eq_getElem hs]
  rfl

theorem take_memcpy_zero (dst src : List Nat) (s n : Nat)
    (hdst : n ≤ dst.length) (hsrc : s + n ≤ src.length) :
    (memcpy dst 0 src s n).take n = (src.drop s).take n := by
  apply List.ext_getElem?
  intro k
  rw [List.getElem?_take, List.getElem?_take, List.getElem?_drop]
  by_cases hk : k < n
  · have h := getElem?_memcpy_copied dst 0 src s n k hk (by omega) hsrc
    rw [Nat.zero_add] at h
    rw [if_pos hk, if_pos hk, h]
  · rw [if_neg hk, if_neg hk]

/-! ## Lookup -/

theorem app_get_attribute_loop_eq_none (handle : Nat) (tbl : List gatt_db_lookup_table_t) :
    ∀ k, app_get_attribute_loop handle tbl k = none ↔ ∀ e ∈ tbl, e.handle ≠ handle := by
  induction tbl with
  | nil => intro k; simp [app_get_attribute_loop]
  | cons e rest ih =>
    intro k
    by_cases he : e.handle = handle
    · simp [app_get_attribute_loop, he]
    · simp [app_get_attribute_loop, he, ih (k + 1)]

theorem app_get_attribute_loop_eq_some (handle : Nat) (tbl : List gatt_db_lookup_table_t) :
    ∀ k i r, app_get_attribute_loop handle tbl k = some (i, r) ↔
      ∃ j, i = k + j ∧ tbl[j]? = some r ∧ r.handle = handle ∧
        ∀ m, m < j → ∀ e, tbl[m]? = some e → e.handle ≠ handle := by
  induction tbl with
  | nil => intro k i r; simp [app_get_attribute_loop]
  | cons e rest ih =>
    intro k i r
    by_cases he : e.handle = handle
    · simp only [app_get_attribute_loop, he, if_true]
      constructor
      · intro h
        simp only [Option.some.injEq, Prod.mk.injEq] at h
        obtain ⟨h1, h2⟩ := h
        subst h1 h2
        exact ⟨0, by simp, by simp, he, by intro m hm; omega⟩
      · rintro ⟨j, hij, hj, -, hfirst⟩
        cases j with
        | zero =>
          simp only [List.getElem?_cons_zero, Option.some.injEq] at hj
          subst hj; subst hij; simp
        | succ j => exact absurd he (hfirst 0 (by omega) e (by simp))
    · simp only [app_get_attribute_loop, he, if_false]
      rw [ih (k + 1) i r]
      constructor
      · rintro ⟨j, hij, hj, hr, hfirst⟩
        refine ⟨j + 1, by omega, by simpa using hj, hr, ?_⟩
        intro m hm x hx
        cases m with
        | zero =>
          simp only [List.getElem?_cons_zero, Option.some.injEq] at hx
          subst hx; exact he
        | succ m => exact hfirst m (by omega) x (by simpa using hx)
      · rintro ⟨j, hij, hj, hr, hfirst⟩
        cases j with
        | zero =>
          simp only [List.getElem?_cons_zero, Option.some.injEq] at hj
          subst hj; exact absurd hr he
        | succ j =>
          refine ⟨j, by omega, by simpa using hj, hr, ?_⟩
          intro m hm x hx
          exact hfirst (m + 1) (by omega) x (by simpa using hx)

theorem app_get_attribute_eq_none (tbl : List gatt_db_lookup_table_t) (handle : Nat) :
    app_get_attribute tbl handle = none ↔ ∀ e ∈ tbl, e.handle ≠ handle :=
  app_get_attribute_loop_eq_none handle tbl 0

theorem app_get_attribute_eq_some (tbl : List gatt_db_lookup_table_t) (handle i : Nat)
    (r : gatt_db_lookup_table_t) :
    app_get_attribute tbl handle = some (i, r) ↔
      tbl[i]? = some r ∧ r.handle = handle ∧
        ∀ m, m < i → ∀ e, tbl[m]? = some e → e.handle ≠ handle := by
  unfold app_get_attribute
  rw [app_get_attribute_loop_eq_some]
  constructor
  · rintro ⟨j, hij, h⟩
    have : i = j := by omega
    subst this; exact h
  · intro h
    exact ⟨i, by omega, h⟩

/-! ## Write -/

theorem write_fits_iff (C o L : Nat) : ((C : Int) - (o : Int) ≥ (L : Int)) ↔ o + L ≤ C := by
  omega

theorem app_bt_write_handle_value_res (g : app_globals) (handle offset : Nat)
    (p_val : List Nat) (len i : Nat) (r : gatt_db_lookup_table_t)
    (hget : app_get_attribute g.app_gatt_db_ext_attr_tbl handle = some (i, r)) :
    (app_bt_write_handle_value g handle offset p_val len).res =
      if offset + len ≤ r.max_len then WICED_BT_GATT_SUCCESS
      else WICED_BT_GATT_INVALID_ATTR_LEN := by
  unfold app_bt_write_handle_value
  simp only [hget, write_fits_iff]
  by_cases hfit : offset + len ≤ r.max_len
  · by_cases hh : handle = HDLC_IAS_ALERT_LEVEL_VALUE <;> simp [hfit, hh]
  · simp [hfit]

/-- C1. For a handle that `app_get_attribute` finds in the table, with capacity
`max_len`, `app_bt_write_handle_value` returns success exactly when
`offset + len ≤ max_len` in the natural numbers (no wrap-around), and returns
`WICED_BT_GATT_INVALID_ATTR_LEN` otherwise. -/
theorem write_succeeds_iff_it_fits (g : app_globals) (handle offset : Nat)
    (p_val : List Nat) (len i : Nat) (r : gatt_db_lookup_table_t)
    (hget : app_get_attribute g.app_gatt_db_ext_attr_tbl handle = some (i, r)) :
    ((app_bt_write_handle_value g handle offset p_val len).res = WICED_BT_GATT_SUCCESS ↔
        offset + len ≤ r.max_len) ∧
      (¬ offset + len ≤ r.max_len →
        (app_bt_write_handle_value g handle offset p_val len).res =
          WICED_BT_GATT_INVALID_ATTR_LEN) := by
  rw [app_bt_write_handle_value_res g handle offset p_val len i r hget]
  by_cases hfit : offset + len ≤ r.max_len <;> simp [hfit]

theorem app_bt_write_handle_value_failed (g : app_globals) (handle offset : Nat)
    (p_val : List Nat) (len : Nat)
    (hfail : (app_bt_write_handle_value g handle offset p_val len).res ≠
      WICED_BT_GATT_SUCCESS) :
    ((app_bt_write_handle_value g handle offset p_val len).res =
        WICED_BT_GATT_INVALID_HANDLE ∨
      (app_bt_write_handle_value g handle offset p_val len).res =
        WICED_BT_GATT_INVALID_ATTR_LEN) ∧
    (app_bt_write_handle_value g handle offset p_val len).globals = g ∧
    (app_bt_write_handle_value g handle offset p_val len).calls = [] := by
  unfold app_bt_write_handle_value at hfail ⊢
  cases hget : app_get_attribute g.app_gatt_db_ext_attr_tbl handle with
  | none => simp
  | some ir =>
    obtain ⟨i, r⟩ := ir
    simp only [hget] at hfail ⊢
    by_cases hfit : (r.max_len : Int) - (offset : Int) ≥ (len : Int)
    · by_cases hh : handle = HDLC_IAS_ALERT_LEVEL_VALUE <;> simp [hfit, hh] at hfail
    · simp [hfit]

/-- C2. When `app_bt_write_handle_value` returns a status other than success, the
status is `WICED_BT_GATT_INVALID_HANDLE` or `WICED_BT_GATT_INVALID_ATTR_LEN`,
the globals (so every byte of every record of the table) are unchanged and no
call of `ias_led_update` is made. -/
theorem write_failure_changes_nothing (g : app_globals) (handle offset : Nat)
    (p_val : List Nat) (len : Nat)
    (hfail : (app_bt_write_handle_value g handle offset p_val len).res ≠
      WICED_BT_GATT_SUCCESS) :
    ((app_bt_write_handle_value g handle offset p_val len).res =
        WICED_BT_GATT_INVALID_HANDLE ∨
      (app_bt_write_handle_value g handle offset p_val len).res =
        WICED_BT_GATT_INVALID_ATTR_LEN) ∧
    (app_bt_write_handle_value g handle offset p_val len).globals = g ∧
    (app_bt_write_handle_value g handle offset p_val len).calls = [] :=
  app_bt_write_handle_value_failed g handle offset p_val len hfail

/-- C6. For a handle that no entry of the table has, `app_bt_read_handle_value`
and `app_bt_write_handle_value` both return `WICED_BT_GATT_INVALID_HANDLE`,
whatever the offset, the length and the payload; the globals (so the table), the
read buffer and the read length are unchanged and no call is made. -/
theorem unknown_handle_is_invalid_handle (g : app_globals) (handle : Nat)
    (hno : ∀ e ∈ g.app_gatt_db_ext_attr_tbl, e.handle ≠ handle)
    (offset len : Nat) (p_val buff : List Nat) :
    (app_bt_read_handle_value g handle offset buff len).res = WICED_BT_GATT_INVALID_HANDLE ∧
    (app_bt_read_handle_value g handle offset buff len).globals = g ∧
    (app_bt_read_handle_value g handle offset buff len).p_len = len ∧
    (app_bt_read_handle_value g handle offset buff len).buff = buff ∧
    (app_bt_read_handle_value g handle offset buff len).calls = [] ∧
    (app_bt_write_handle_value g handle offset p_val len).res = WICED_BT_GATT_INVALID_HANDLE ∧
    (app_bt_write_handle_value g handle offset p_val len).globals = g ∧
    (app_bt_write_handle_value g handle offset p_val len).calls = [] := by
  have hget : app_get_attribute g.app_gatt_db_ext_attr_tbl handle = none :=
    (app_get_attribute_eq_none _ _).2 hno
  simp [app_bt_read_handle_value, app_bt_write_handle_value, hget]

/-- C10. The function `app_get_attribute` returns `NULL` exactly when no entry of
the table has the handle; it returns the entry at index `i` exactly when that
entry has the handle and no entry at a smaller index has it, so the handle of
the returned entry is the argument. -/
theorem app_get_attribute_first_match (tbl : List gatt_db_lookup_table_t) (handle : Nat) :
    (app_get_attribute tbl handle = none ↔ ∀ e ∈ tbl, e.handle ≠ handle) ∧
    (∀ i r, app_get_attribute tbl handle = some (i, r) ↔
      (tbl[i]? = some r ∧ r.handle = handle ∧
        ∀ m, m < i → ∀ e, tbl[m]? = some e → e.handle ≠ handle)) :=
  ⟨app_get_attribute_eq_none tbl handle, fun i r => app_get_attribute_eq_some tbl handle i r⟩

/-! ## Read -/

theorem read_clamp (L C o : Nat) (ho : o < C) :
    (if (L : Int) > (C : Int) - (o : Int) then C - o else L) = min L (C - o) := by
  by_cases h : (L : Int) > (C : Int) - (o : Int)
  · rw [if_pos h]; omega
  · rw [if_neg h]; omega

theorem app_bt_read_handle_value_found (g : app_globals) (handle offset : Nat)
    (buff : List Nat) (len i : Nat) (r : gatt_db_lookup_table_t)
    (hget : app_get_attribute g.app_gatt_db_ext_attr_tbl handle = some (i, r))
    (ho : offset % 256 < r.max_len) :
    app_bt_read_handle_value g handle offset buff len =
      { res := WICED_BT_GATT_SUCCESS,
        buff := memcpy buff 0 r.p_data (offset % 256) (min len (r.max_len - offset % 256)),
        p_len := min len (r.max_len - offset % 256),
        globals := g, calls := [] } := by
  unfold app_bt_read_handle_value
  simp only [hget, if_pos ho, read_clamp len r.max_len (offset % 256) ho]

theorem app_bt_read_handle_value_beyond (g : app_globals) (handle offset : Nat)
    (buff : List Nat) (len i : Nat) (r : gatt_db_lookup_table_t)
    (hget : app_get_attribute g.app_gatt_db_ext_attr_tbl handle = some (i, r))
    (ho : ¬ offset % 256 < r.max_len) :
    app_bt_read_handle_value g handle offset buff len =
      { res := WICED_BT_GATT_INVALID_OFFSET, buff := buff, p_len := len,
        globals := g, calls := [] } := by
  unfold app_bt_read_handle_value
  simp only [hget, if_neg ho]

/-- C3, as amended. For a handle that `app_get_attribute` finds, with capacity
`max_len`, an offset `o < max_len` that the 8-bit offset parameter can hold
(`o < 256`) and a requested length `len`, `app_bt_read_handle_value` succeeds
and sets the length to `min len (max_len - o)`; when the buffer of the record
holds `max_len` bytes and the output buffer holds that many bytes as are
returned, the bytes returned are exactly `min len (max_len - o)` bytes, those
of the record from position `o` on. -/
theorem read_below_capacity_returns_slice (g : app_globals) (handle o : Nat)
    (buff : List Nat) (len i : Nat) (r : gatt_db_lookup_table_t)
    (hget : app_get_attribute g.app_gatt_db_ext_attr_tbl handle = some (i, r))
    (ho8 : o < 256) (ho : o < r.max_len) :
    (app_bt_read_handle_value g handle o buff len).res = WICED_BT_GATT_SUCCESS ∧
    (app_bt_read_handle_value g handle o buff len).p_len = min len (r.max_len - o) ∧
    (r.max_len ≤ r.p_data.length → min len (r.max_len - o) ≤ buff.length →
      ((app_bt_read_handle_value g handle o buff len).buff.take
          (app_bt_read_handle_value g handle o buff len).p_len).length =
        min len (r.max_len - o) ∧
      (app_bt_read_handle_value g handle o buff len).buff.take
          (app_bt_read_handle_value g handle o buff len).p_len =
        (r.p_data.drop o).take (min len (r.max_len - o))) := by
  have hmod : o % 256 = o := Nat.mod_eq_of_lt ho8
  have hfound := app_bt_read_handle_value_found g handle o buff len i r hget (by omega)
  rw [hmod] at hfound
  rw [hfound]
  refine ⟨rfl, rfl, ?_⟩
  intro hrec hout
  have htake := take_memcpy_zero buff r.p_data o (min len (r.max_len - o)) hout (by omega)
  refine ⟨?_, htake⟩
  simp only [List.length_take, length_memcpy]
  omega

/-- C5. Let `o` be the offset as `app_bt_read_handle_value` receives it, the
argument reduced to 8 bits. For a handle that `app_get_attribute` finds, with
capacity `max_len`, when `o < max_len` the read succeeds and sets the length to
`min len (max_len - o)`, which is at most the requested length; when the buffer
of the record holds `max_len` bytes and the output buffer holds the bytes
returned, byte `k` of the output buffer is byte `o + k` of the record for every
`k < min len (max_len - o)`. -/
theorem read_clamps_length_and_copies (g : app_globals) (handle offset : Nat)
    (buff : List Nat) (len i : Nat) (r : gatt_db_lookup_table_t)
    (hget : app_get_attribute g.app_gatt_db_ext_attr_tbl handle = some (i, r))
    (ho : offset % 256 < r.max_len) :
    (app_bt_read_handle_value g handle offset buff len).res = WICED_BT_GATT_SUCCESS ∧
    (app_bt_read_handle_value g handle offset buff len).p_len =
      min len (r.max_len - offset % 256) ∧
    (app_bt_read_handle_value g handle offset buff len).p_len ≤ len ∧
    (r.max_len ≤ r.p_data.length → min len (r.max_len - offset % 256) ≤ buff.length →
      ∀ k, k < min len (r.max_len - offset % 256) →
        ∃ b, r.p_data[offset % 256 + k]? = some b ∧
          (app_bt_read_handle_value g handle offset buff len).buff[k]? = some b) := by
  rw [app_bt_read_handle_value_found g handle offset buff len i r hget ho]
  refine ⟨rfl, rfl, Nat.min_le_left _ _, ?_⟩
  intro hrec hout k hk
  have hs : offset % 256 + k < r.p_data.length := by omega
  refine ⟨r.p_data[offset % 256 + k], List.getElem?_eq_getElem hs, ?_⟩
  have h := getElem?_memcpy_copied buff 0 r.p_data (offset % 256)
    (min len (r.max_len - offset % 256)) k hk (by omega) (by omega)
  rw [Nat.zero_add] at h
  rw [h, List.getElem?_eq_getElem hs]

/-! ## Write followed by lookup and read -/

theorem app_get_attribute_set (tbl : List gatt_db_lookup_table_t) (handle i : Nat)
    (r r2 : gatt_db_lookup_table_t)
    (hget : app_get_attribute tbl handle = some (i, r)) (hh : r2.handle = r.handle) :
    app_get_attribute (tbl.set i r2) handle = some (i, r2) := by
  obtain ⟨hi, hr, hfirst⟩ := (app_get_attribute_eq_some tbl handle i r).1 hget
  rw [app_get_attribute_eq_some]
  have hlt : i < tbl.length := by
    by_contra hge
    rw [List.getElem?_eq_none (by omega)] at hi
    exact Option.noConfusion hi
  refine ⟨?_, by rw [hh, hr], ?_⟩
  · rw [List.getElem?_set]; simp [hlt]
  · intro m hm e he
    rw [List.getElem?_set_ne (by omega)] at he
    exact hfirst m hm e he

theorem app_bt_write_handle_value_fits (g : app_globals) (handle offset : Nat)
    (p_val : List Nat) (len i : Nat) (r : gatt_db_lookup_table_t)
    (hget : app_get_attribute g.app_gatt_db_ext_attr_tbl handle = some (i, r))
    (hfit : offset + len ≤ r.max_len) :
    (app_bt_write_handle_value g handle offset p_val len).res = WICED_BT_GATT_SUCCESS ∧
    (app_bt_write_handle_value g handle offset p_val len).globals =
      { g with
        app_gatt_db_ext_attr_tbl :=
          g.app_gatt_db_ext_attr_tbl.set i
            { r with p_data := memcpy r.p_data offset p_val 0 len } } ∧
    (app_bt_write_handle_value g handle offset p_val len).calls =
      if handle = HDLC_IAS_ALERT_LEVEL_VALUE then
        [app_call.ias_led_update (app_bt_write_handle_value g handle offset p_val len).globals]
      else [] := by
  unfold app_bt_write_handle_value
  simp only [hget, write_fits_iff]
  by_cases hh : handle = HDLC_IAS_ALERT_LEVEL_VALUE <;> simp [hfit, hh]

theorem app_get_attribute_after_write (g : app_globals) (handle offset : Nat)
    (p_val : List Nat) (len i : Nat) (r : gatt_db_lookup_table_t)
    (hget : app_get_attribute g.app_gatt_db_ext_attr_tbl handle = some (i, r))
    (hfit : offset + len ≤ r.max_len) :
    app_get_attribute
        (app_bt_write_handle_value g handle offset p_val len).globals.app_gatt_db_ext_attr_tbl
        handle =
      some (i, { r with p_data := memcpy r.p_data offset p_val 0 len }) := by
  rw [(app_bt_write_handle_value_fits g handle offset p_val len i r hget hfit).2.1]
  exact app_get_attribute_set _ handle i r _ hget rfl

/-- Round trip for the offsets the read can address: for a handle that
`app_get_attribute` finds, an offset `o < 256` and a non-empty payload `p` with
`o + p.length ≤ max_len`, a write of `p` at `o` followed by a read of
`p.length` bytes at `o` returns success and the payload, when the buffer of the
record holds `max_len` bytes and the output buffer holds the payload. -/
theorem write_then_read_below_256 (g : app_globals) (handle o : Nat)
    (p buff : List Nat) (i : Nat) (r : gatt_db_lookup_table_t)
    (hget : app_get_attribute g.app_gatt_db_ext_attr_tbl handle = some (i, r))
    (ho8 : o < 256) (hp : p ≠ []) (hfit : o + p.length ≤ r.max_len)
    (hrec : r.max_len ≤ r.p_data.length) (hout : p.length ≤ buff.length) :
    (app_bt_write_handle_value g handle o p p.length).res = WICED_BT_GATT_SUCCESS ∧
    (app_bt_read_handle_value (app_bt_write_handle_value g handle o p p.length).globals
      handle o buff p.length).res = WICED_BT_GATT_SUCCESS ∧
    (app_bt_read_handle_value (app_bt_write_handle_value g handle o p p.length).globals
      handle o buff p.length).p_len = p.length ∧
    (app_bt_read_handle_value (app_bt_write_handle_value g handle o p p.length).globals
      handle o buff p.length).buff.take p.length = p := by
  have hpos : 0 < p.length := List.length_pos.2 hp
  have hget2 := app_get_attribute_after_write g handle o p p.length i r hget hfit
  have hmod : o % 256 = o := Nat.mod_eq_of_lt ho8
  have hfound := app_bt_read_handle_value_found
    (app_bt_write_handle_value g handle o p p.length).globals handle o buff p.length i _
    hget2 (by simp only [hmod]; omega)
  have hmin : min p.length (r.max_len - o) = p.length := by omega
  simp only [hmod, hmin] at hfound
  rw [hfound]
  refine ⟨(app_bt_write_handle_value_fits g handle o p p.length i r hget hfit).1, rfl, rfl, ?_⟩
  apply List.ext_getElem?
  intro k
  rw [List.getElem?_take]
  by_cases hk : k < p.length
  · rw [if_pos hk]
    have h1 := getElem?_memcpy_copied buff 0 (memcpy r.p_data o p 0 p.length) o p.length k hk
      (by omega) (by rw [length_memcpy]; omega)
    have h2 := getElem?_memcpy_copied r.p_data o p 0 p.length k hk (by omega) (by omega)
    rw [Nat.zero_add] at h1 h2
    rw [h1, h2]
  · rw [if_neg hk, List.getElem?_eq_none (by omega)]

/-- C8. The function `app_bt_write_handle_value` calls `ias_led_update` exactly once
when it returns success and the handle is `HDLC_IAS_ALERT_LEVEL_VALUE`, and
makes no call otherwise. The call sees the globals the write leaves behind:
`app_ias_alert_level` is then the buffer of the record with the payload copied
in, so its byte at `offset + k` is byte `k` of the payload for every
`k < len`, when the payload holds `len` bytes and the buffer `max_len` bytes. -/
theorem write_notifies_once_on_alert_level (g : app_globals) (handle offset : Nat)
    (p_val : List Nat) (len : Nat) :
    ((app_bt_write_handle_value g handle offset p_val len).res = WICED_BT_GATT_SUCCESS ∧
        handle = HDLC_IAS_ALERT_LEVEL_VALUE →
      (app_bt_write_handle_value g handle offset p_val len).calls =
        [app_call.ias_led_update (app_bt_write_handle_value g handle offset p_val len).globals] ∧
      ∃ i r, app_get_attribute g.app_gatt_db_ext_attr_tbl handle = some (i, r) ∧
        app_ias_alert_level (app_bt_write_handle_value g handle offset p_val len).globals =
          memcpy r.p_data offset p_val 0 len ∧
        (len ≤ p_val.length → r.max_len ≤ r.p_data.length → ∀ k, k < len →
          (app_ias_alert_level
            (app_bt_write_handle_value g handle offset p_val len).globals)[offset + k]? =
              p_val[k]?)) ∧
    (¬ ((app_bt_write_handle_value g handle offset p_val len).res = WICED_BT_GATT_SUCCESS ∧
        handle = HDLC_IAS_ALERT_LEVEL_VALUE) →
      (app_bt_write_handle_value g handle offset p_val len).calls = []) := by
  cases hget : app_get_attribute g.app_gatt_db_ext_attr_tbl handle with
  | none => simp [app_bt_write_handle_value, hget]
  | some ir =>
    obtain ⟨i, r⟩ := ir
    by_cases hfit : offset + len ≤ r.max_len
    · obtain ⟨hres, -, hcalls⟩ :=
        app_bt_write_handle_value_fits g handle offset p_val len i r hget hfit
      have hget2 := app_get_attribute_after_write g handle offset p_val len i r hget hfit
      constructor
      · rintro ⟨-, hh⟩
        rw [hcalls, if_pos hh]
        refine ⟨rfl, i, r, rfl, ?_, ?_⟩
        · unfold app_ias_alert_level
          rw [← hh, hget2]
        · intro hp hrec k hk
          unfold app_ias_alert_level
          rw [← hh, hget2]
          have h := getElem?_memcpy_copied r.p_data offset p_val 0 len k hk
            (by omega) (by omega)
          rw [Nat.zero_add] at h
          exact h
      · intro hnot
        have hh : handle ≠ HDLC_IAS_ALERT_LEVEL_VALUE := fun hh => hnot ⟨hres, hh⟩
        rw [hcalls, if_neg hh]
    · have hres := app_bt_write_handle_value_res g handle offset p_val len i r hget
      rw [if_neg hfit] at hres
      constructor
      · rintro ⟨hs, -⟩
        rw [hres] at hs
        exact wiced_bt_gatt_status_t.noConfusion hs
      · intro _
        have hne : (app_bt_write_handle_value g handle offset p_val len).res ≠
            WICED_BT_GATT_SUCCESS := by
          rw [hres]; exact fun h => wiced_bt_gatt_status_t.noConfusion h
        exact (app_bt_write_handle_value_failed g handle offset p_val len hne).2.2

/-! ## The offset of a read request -/

/-- C3, counterexample. On the table with the one record of capacity 1, a read at
offset 1, which is not larger than the capacity, does not succeed: it returns
`WICED_BT_GATT_INVALID_OFFSET` and leaves the buffer and the length as they
were. -/
theorem read_at_capacity_is_invalid_offset :
    app_get_attribute (alert_globals 1 5 0 .APP_BT_ADV_OFF_CONN_OFF).app_gatt_db_ext_attr_tbl
        0x002A = some (0, alert_record 1 5) ∧
      1 ≤ (alert_record 1 5).max_len ∧
      (app_bt_read_handle_value (alert_globals 1 5 0 .APP_BT_ADV_OFF_CONN_OFF) 0x002A 1 [9] 1).res
        = WICED_BT_GATT_INVALID_OFFSET ∧
      (app_bt_read_handle_value (alert_globals 1 5 0 .APP_BT_ADV_OFF_CONN_OFF) 0x002A 1 [9] 1).res
        ≠ WICED_BT_GATT_SUCCESS ∧
      (app_bt_read_handle_value (alert_globals 1 5 0 .APP_BT_ADV_OFF_CONN_OFF) 0x002A 1 [9] 1).buff
        = [9] := by
  decide

/-- C4, at the failing input. A read request for the record of capacity 1 with the
16-bit offset 256, which is not below the capacity, is answered by
`app_gatt_req_event` with success, not with `WICED_BT_GATT_INVALID_OFFSET`, and
one byte, the byte at position 0 of the record, is copied to the buffer: the
offset reaches `app_bt_read_handle_value` as 0. -/
theorem read_request_offset_256_is_served :
    (alert_record 1 5).max_len ≤ 256 ∧
      (app_gatt_req_event (alert_globals 1 5 0 .APP_BT_ADV_OFF_CONN_OFF) 1
        .GATTS_REQ_TYPE_READ (read_request 0x002A 256 1 [9])).res = WICED_BT_GATT_SUCCESS ∧
      (app_gatt_req_event (alert_globals 1 5 0 .APP_BT_ADV_OFF_CONN_OFF) 1
        .GATTS_REQ_TYPE_READ (read_request 0x002A 256 1 [9])).p_data.read_req.p_val = [5] ∧
      (app_gatt_req_event (alert_globals 1 5 0 .APP_BT_ADV_OFF_CONN_OFF) 1
        .GATTS_REQ_TYPE_READ (read_request 0x002A 256 1 [9])).p_data.read_req.p_val_len = 1 := by
  decide

/-- C7, at the failing input. On a record of capacity 257 holding `1` at position
0, the write of the payload `[7]` at offset 256 fits and succeeds, and the read
of one byte at offset 256 that follows succeeds and returns `[1]`, the byte at
position 0, not the payload. -/
theorem write_then_read_at_256_returns_byte_0 :
    app_get_attribute wide_globals.app_gatt_db_ext_attr_tbl 3 = some (1, wide_record) ∧
      256 + [7].length ≤ wide_record.max_len ∧
      wide_record.max_len ≤ wide_record.p_data.length ∧
      (app_bt_write_handle_value wide_globals 3 256 [7] 1).res = WICED_BT_GATT_SUCCESS ∧
      (app_bt_read_handle_value (app_bt_write_handle_value wide_globals 3 256 [7] 1).globals
        3 256 [0] 1).res = WICED_BT_GATT_SUCCESS ∧
      (app_bt_read_handle_value (app_bt_write_handle_value wide_globals 3 256 [7] 1).globals
        3 256 [0] 1).p_len = 1 ∧
      (app_bt_read_handle_value (app_bt_write_handle_value wide_globals 3 256 [7] 1).globals
        3 256 [0] 1).buff = [1] ∧
      (app_bt_read_handle_value (app_bt_write_handle_value wide_globals 3 256 [7] 1).globals
        3 256 [0] 1).buff ≠ [7] := by
  refine ⟨rfl, by decide, ?_, by decide, by decide, by decide, by decide, by decide⟩
  show 257 ≤ (1 :: List.replicate 256 0).length
  rw [List.length_cons, List.length_replicate]

/-! ## The end-to-end scenario -/

/-- C9. On a table with the one record of handle `0x002A` and capacity 1, whatever
it holds at first: the write of `[0x02]` at offset 0 returns success and makes
one call of `ias_led_update`, which sees the alert level 2; the read of one byte
at offset 0 then returns success and `[0x02]`; the write of `[0x01, 0x02]` then
returns `WICED_BT_GATT_INVALID_ATTR_LEN` and the stored byte is still `0x02`. -/
theorem alert_level_scenario (cur_len b conn_id x : Nat) (mode : app_bt_adv_conn_mode_t) :
    (app_bt_write_handle_value (alert_globals cur_len b conn_id mode) 0x002A 0 [0x02] 1).res =
      WICED_BT_GATT_SUCCESS ∧
    (app_bt_write_handle_value (alert_globals cur_len b conn_id mode) 0x002A 0 [0x02] 1).globals =
      alert_globals cur_len 0x02 conn_id mode ∧
    (app_bt_write_handle_value (alert_globals cur_len b conn_id mode) 0x002A 0 [0x02] 1).calls =
      [app_call.ias_led_update (alert_globals cur_len 0x02 conn_id mode)] ∧
    app_ias_alert_level (alert_globals cur_len 0x02 conn_id mode) = [2] ∧
    (app_bt_read_handle_value (alert_globals cur_len 0x02 conn_id mode) 0x002A 0 [x] 1).res =
      WICED_BT_GATT_SUCCESS ∧
    (app_bt_read_handle_value (alert_globals cur_len 0x02 conn_id mode) 0x002A 0 [x] 1).buff =
      [0x02] ∧
    (app_bt_read_handle_value (alert_globals cur_len 0x02 conn_id mode) 0x002A 0 [x] 1).p_len =
      1 ∧
    (app_bt_read_handle_value (alert_globals cur_len 0x02 conn_id mode) 0x002A 0 [x] 1).globals =
      alert_globals cur_len 0x02 conn_id mode ∧
    (app_bt_write_handle_value (alert_globals cur_len 0x02 conn_id mode) 0x002A 0
      [0x01, 0x02] 2).res = WICED_BT_GATT_INVALID_ATTR_LEN ∧
    (app_bt_write_handle_value (alert_globals cur_len 0x02 conn_id mode) 0x002A 0
      [0x01, 0x02] 2).globals = alert_globals cur_len 0x02 conn_id mode ∧
    (app_bt_write_handle_value (alert_globals cur_len 0x02 conn_id mode) 0x002A 0
      [0x01, 0x02] 2).calls = [] := by
  refine ⟨rfl, rfl, rfl, rfl, rfl, rfl, rfl, rfl, rfl, rfl, rfl⟩


/-! ## Instances -/

/-- The theorem of C1 at the wide record: a write of 57 bytes at offset 200 fits
its 257 bytes. -/
theorem write_succeeds_iff_it_fits_witness :
    app_get_attribute wide_globals.app_gatt_db_ext_attr_tbl 3 = some (1, wide_record) ∧
    (((app_bt_write_handle_value wide_globals 3 200 (List.replicate 57 9) 57).res =
          WICED_BT_GATT_SUCCESS ↔ 200 + 57 ≤ wide_record.max_len) ∧
      (¬ 200 + 57 ≤ wide_record.max_len →
        (app_bt_write_handle_value wide_globals 3 200 (List.replicate 57 9) 57).res =
          WICED_BT_GATT_INVALID_ATTR_LEN)) :=
  ⟨rfl, write_succeeds_iff_it_fits wide_globals 3 200 (List.replicate 57 9) 57 1 wide_record rfl⟩

/-- The theorem of C2 at a write of two bytes to the record of capacity 1. -/
theorem write_failure_changes_nothing_witness :
    (app_bt_write_handle_value (alert_globals 1 2 0 .APP_BT_ADV_OFF_CONN_ON) 0x002A 0 [1, 2] 2).res
        ≠ WICED_BT_GATT_SUCCESS ∧
    (((app_bt_write_handle_value (alert_globals 1 2 0 .APP_BT_ADV_OFF_CONN_ON) 0x002A 0
          [1, 2] 2).res = WICED_BT_GATT_INVALID_HANDLE ∨
        (app_bt_write_handle_value (alert_globals 1 2 0 .APP_BT_ADV_OFF_CONN_ON) 0x002A 0
          [1, 2] 2).res = WICED_BT_GATT_INVALID_ATTR_LEN) ∧
      (app_bt_write_handle_value (alert_globals 1 2 0 .APP_BT_ADV_OFF_CONN_ON) 0x002A 0
        [1, 2] 2).globals = alert_globals 1 2 0 .APP_BT_ADV_OFF_CONN_ON ∧
      (app_bt_write_handle_value (alert_globals 1 2 0 .APP_BT_ADV_OFF_CONN_ON) 0x002A 0
        [1, 2] 2).calls = []) :=
  ⟨by decide,
    write_failure_changes_nothing (alert_globals 1 2 0 .APP_BT_ADV_OFF_CONN_ON) 0x002A 0
      [1, 2] 2 (by decide)⟩

/-- The theorem of C3, as amended, at a read of 300 bytes at offset 2 of the wide
record: 255 bytes are returned. -/
theorem read_below_capacity_returns_slice_witness :
    (app_get_attribute wide_globals.app_gatt_db_ext_attr_tbl 3 = some (1, wide_record) ∧
      2 < 256 ∧ 2 < wide_record.max_len) ∧
    ((app_bt_read_handle_value wide_globals 3 2 (List.replicate 300 0) 300).res =
        WICED_BT_GATT_SUCCESS ∧
      (app_bt_read_handle_value wide_globals 3 2 (List.replicate 300 0) 300).p_len =
        min 300 (wide_record.max_len - 2) ∧
      (wide_record.max_len ≤ wide_record.p_data.length →
        min 300 (wide_record.max_len - 2) ≤ (List.replicate 300 0).length →
        ((app_bt_read_handle_value wide_globals 3 2 (List.replicate 300 0) 300).buff.take
            (app_bt_read_handle_value wide_globals 3 2 (List.replicate 300 0) 300).p_len).length =
          min 300 (wide_record.max_len - 2) ∧
        (app_bt_read_handle_value wide_globals 3 2 (List.replicate 300 0) 300).buff.take
            (app_bt_read_handle_value wide_globals 3 2 (List.replicate 300 0) 300).p_len =
          (wide_record.p_data.drop 2).take (min 300 (wide_record.max_len - 2)))) :=
  ⟨⟨rfl, by decide, by decide⟩,
    read_below_capacity_returns_slice wide_globals 3 2 (List.replicate 300 0) 300 1 wide_record
      rfl (by decide) (by decide)⟩

/-- The theorem of C5 at the argument 258, received as offset 2, on the wide
record. -/
theorem read_clamps_length_and_copies_witness :
    (app_get_attribute wide_globals.app_gatt_db_ext_attr_tbl 3 = some (1, wide_record) ∧
      258 % 256 < wide_record.max_len) ∧
    ((app_bt_read_handle_value wide_globals 3 258 [0, 0, 0] 3).res = WICED_BT_GATT_SUCCESS ∧
      (app_bt_read_handle_value wide_globals 3 258 [0, 0, 0] 3).p_len =
        min 3 (wide_record.max_len - 258 % 256) ∧
      (app_bt_read_handle_value wide_globals 3 258 [0, 0, 0] 3).p_len ≤ 3 ∧
      (wide_record.max_len ≤ wide_record.p_data.length →
        min 3 (wide_record.max_len - 258 % 256) ≤ [0, 0, 0].length →
        ∀ k, k < min 3 (wide_record.max_len - 258 % 256) →
          ∃ b, wide_record.p_data[258 % 256 + k]? = some b ∧
            (app_bt_read_handle_value wide_globals 3 258 [0, 0, 0] 3).buff[k]? = some b)) :=
  ⟨⟨rfl, by decide⟩,
    read_clamps_length_and_copies wide_globals 3 258 [0, 0, 0] 3 1 wide_record rfl (by decide)⟩

/-- The theorem of C6 at the handle 7, which the table with the two records does
not have. -/
theorem unknown_handle_is_invalid_handle_witness :
    (∀ e ∈ wide_globals.app_gatt_db_ext_attr_tbl, e.handle ≠ 7) ∧
    ((app_bt_read_handle_value wide_globals 7 0 [9] 1).res = WICED_BT_GATT_INVALID_HANDLE ∧
      (app_bt_read_handle_value wide_globals 7 0 [9] 1).globals = wide_globals ∧
      (app_bt_read_handle_value wide_globals 7 0 [9] 1).p_len = 1 ∧
      (app_bt_read_handle_value wide_globals 7 0 [9] 1).buff = [9] ∧
      (app_bt_read_handle_value wide_globals 7 0 [9] 1).calls = [] ∧
      (app_bt_write_handle_value wide_globals 7 0 [4] 1).res = WICED_BT_GATT_INVALID_HANDLE ∧
      (app_bt_write_handle_value wide_globals 7 0 [4] 1).globals = wide_globals ∧
      (app_bt_write_handle_value wide_globals 7 0 [4] 1).calls = []) :=
  ⟨by decide, unknown_handle_is_invalid_handle wide_globals 7 (by decide) 0 1 [4] [9]⟩

/-! ## The state tracker -/

theorem app_bt_management_callback_advert_off (cfg : app_config) (g : app_globals)
    (p_event_data : wiced_bt_management_evt_data_t)
    (hoff : p_event_data.ble_advert_state_changed = .BTM_BLE_ADVERT_OFF) :
    (app_bt_management_callback cfg g .BTM_BLE_ADVERT_STATE_CHANGED_EVT p_event_data).globals =
      { g with
        app_bt_adv_conn_state :=
          if g.bt_connection_id = 0 then .APP_BT_ADV_OFF_CONN_OFF
          else .APP_BT_ADV_OFF_CONN_ON } := by
  unfold app_bt_management_callback
  by_cases hid : g.bt_connection_id = 0 <;> simp [hoff, hid]

theorem app_bt_management_callback_advert_on (cfg : app_config) (g : app_globals)
    (p_event_data : wiced_bt_management_evt_data_t)
    (hon : p_event_data.ble_advert_state_changed ≠ .BTM_BLE_ADVERT_OFF) :
    (app_bt_management_callback cfg g .BTM_BLE_ADVERT_STATE_CHANGED_EVT p_event_data).globals =
      { g with app_bt_adv_conn_state := .APP_BT_ADV_ON_CONN_OFF } := by
  unfold app_bt_management_callback
  simp [hon]

/-- C13. An advertising-state-changed event with the mode `BTM_BLE_ADVERT_OFF`,
from any globals: the mode becomes `APP_BT_ADV_OFF_CONN_OFF` when
`bt_connection_id` is 0 and `APP_BT_ADV_OFF_CONN_ON` when it is not,
`bt_connection_id` and the table are unchanged, and the globals after two such
events in a row are the globals after one. -/
theorem advert_stopped_tracks_connection (cfg : app_config) (g : app_globals)
    (p_event_data : wiced_bt_management_evt_data_t)
    (hoff : p_event_data.ble_advert_state_changed = .BTM_BLE_ADVERT_OFF) :
    (g.bt_connection_id = 0 →
      (app_bt_management_callback cfg g .BTM_BLE_ADVERT_STATE_CHANGED_EVT
        p_event_data).globals.app_bt_adv_conn_state = .APP_BT_ADV_OFF_CONN_OFF) ∧
    (g.bt_connection_id ≠ 0 →
      (app_bt_management_callback cfg g .BTM_BLE_ADVERT_STATE_CHANGED_EVT
        p_event_data).globals.app_bt_adv_conn_state = .APP_BT_ADV_OFF_CONN_ON) ∧
    (app_bt_management_callback cfg g .BTM_BLE_ADVERT_STATE_CHANGED_EVT
      p_event_data).globals.bt_connection_id = g.bt_connection_id ∧
    (app_bt_management_callback cfg g .BTM_BLE_ADVERT_STATE_CHANGED_EVT
      p_event_data).globals.app_gatt_db_ext_attr_tbl = g.app_gatt_db_ext_attr_tbl ∧
    (app_bt_management_callback cfg
      (app_bt_management_callback cfg g .BTM_BLE_ADVERT_STATE_CHANGED_EVT p_event_data).globals
      .BTM_BLE_ADVERT_STATE_CHANGED_EVT p_event_data).globals =
    (app_bt_management_callback cfg g .BTM_BLE_ADVERT_STATE_CHANGED_EVT p_event_data).globals := by
  have h1 := app_bt_management_callback_advert_off cfg g p_event_data hoff
  refine ⟨fun h => by rw [h1]; simp [h], fun h => by rw [h1]; simp [h], by rw [h1],
    by rw [h1], ?_⟩
  rw [h1, app_bt_management_callback_advert_off cfg _ p_event_data hoff]

/-- The theorem of C13 at an event received while the connection 5 is present. -/
theorem advert_stopped_tracks_connection_witness :
    (advert_state_of .BTM_BLE_ADVERT_OFF).ble_advert_state_changed = .BTM_BLE_ADVERT_OFF ∧
    (((alert_globals 1 0 5 .APP_BT_ADV_ON_CONN_OFF).bt_connection_id = 0 →
      (app_bt_management_callback example_config (alert_globals 1 0 5 .APP_BT_ADV_ON_CONN_OFF)
        .BTM_BLE_ADVERT_STATE_CHANGED_EVT
        (advert_state_of .BTM_BLE_ADVERT_OFF)).globals.app_bt_adv_conn_state =
          .APP_BT_ADV_OFF_CONN_OFF) ∧
    ((alert_globals 1 0 5 .APP_BT_ADV_ON_CONN_OFF).bt_connection_id ≠ 0 →
      (app_bt_management_callback example_config (alert_globals 1 0 5 .APP_BT_ADV_ON_CONN_OFF)
        .BTM_BLE_ADVERT_STATE_CHANGED_EVT
        (advert_state_of .BTM_BLE_ADVERT_OFF)).globals.app_bt_adv_conn_state =
          .APP_BT_ADV_OFF_CONN_ON) ∧
    (app_bt_management_callback example_config (alert_globals 1 0 5 .APP_BT_ADV_ON_CONN_OFF)
      .BTM_BLE_ADVERT_STATE_CHANGED_EVT
      (advert_state_of .BTM_BLE_ADVERT_OFF)).globals.bt_connection_id =
        (alert_globals 1 0 5 .APP_BT_ADV_ON_CONN_OFF).bt_connection_id ∧
    (app_bt_management_callback example_config (alert_globals 1 0 5 .APP_BT_ADV_ON_CONN_OFF)
      .BTM_BLE_ADVERT_STATE_CHANGED_EVT
      (advert_state_of .BTM_BLE_ADVERT_OFF)).globals.app_gatt_db_ext_attr_tbl =
        (alert_globals 1 0 5 .APP_BT_ADV_ON_CONN_OFF).app_gatt_db_ext_attr_tbl ∧
    (app_bt_management_callback example_config
      (app_bt_management_callback example_config (alert_globals 1 0 5 .APP_BT_ADV_ON_CONN_OFF)
        .BTM_BLE_ADVERT_STATE_CHANGED_EVT (advert_state_of .BTM_BLE_ADVERT_OFF)).globals
      .BTM_BLE_ADVERT_STATE_CHANGED_EVT (advert_state_of .BTM_BLE_ADVERT_OFF)).globals =
    (app_bt_management_callback example_config (alert_globals 1 0 5 .APP_BT_ADV_ON_CONN_OFF)
      .BTM_BLE_ADVERT_STATE_CHANGED_EVT (advert_state_of .BTM_BLE_ADVERT_OFF)).globals) :=
  ⟨rfl,
    advert_stopped_tracks_connection example_config
      (alert_globals 1 0 5 .APP_BT_ADV_ON_CONN_OFF) (advert_state_of .BTM_BLE_ADVERT_OFF) rfl⟩

/-- C14. An advertising-state-changed event with a mode other than
`BTM_BLE_ADVERT_OFF`, from any globals, whatever the mode and the connection
id: the mode becomes `APP_BT_ADV_ON_CONN_OFF`, and `bt_connection_id` and the
table are unchanged. -/
theorem advert_started_sets_adv_on (cfg : app_config) (g : app_globals)
    (p_event_data : wiced_bt_management_evt_data_t)
    (hon : p_event_data.ble_advert_state_changed ≠ .BTM_BLE_ADVERT_OFF) :
    (app_bt_management_callback cfg g .BTM_BLE_ADVERT_STATE_CHANGED_EVT
      p_event_data).globals.app_bt_adv_conn_state = .APP_BT_ADV_ON_CONN_OFF ∧
    (app_bt_management_callback cfg g .BTM_BLE_ADVERT_STATE_CHANGED_EVT
      p_event_data).globals.bt_connection_id = g.bt_connection_id ∧
    (app_bt_management_callback cfg g .BTM_BLE_ADVERT_STATE_CHANGED_EVT
      p_event_data).globals.app_gatt_db_ext_attr_tbl = g.app_gatt_db_ext_attr_tbl := by
  rw [app_bt_management_callback_advert_on cfg g p_event_data hon]
  exact ⟨rfl, rfl, rfl⟩

/-- The theorem of C14 at an event with the mode 4, received while the connection
5 is present. -/
theorem advert_started_sets_adv_on_witness :
    (advert_state_of (.other 4)).ble_advert_state_changed ≠ .BTM_BLE_ADVERT_OFF ∧
    ((app_bt_management_callback example_config
        (alert_globals 1 0 5 .APP_BT_ADV_OFF_CONN_ON) .BTM_BLE_ADVERT_STATE_CHANGED_EVT
        (advert_state_of (.other 4))).globals.app_bt_adv_conn_state = .APP_BT_ADV_ON_CONN_OFF ∧
      (app_bt_management_callback example_config
        (alert_globals 1 0 5 .APP_BT_ADV_OFF_CONN_ON) .BTM_BLE_ADVERT_STATE_CHANGED_EVT
        (advert_state_of (.other 4))).globals.bt_connection_id =
          (alert_globals 1 0 5 .APP_BT_ADV_OFF_CONN_ON).bt_connection_id ∧
      (app_bt_management_callback example_config
        (alert_globals 1 0 5 .APP_BT_ADV_OFF_CONN_ON) .BTM_BLE_ADVERT_STATE_CHANGED_EVT
        (advert_state_of (.other 4))).globals.app_gatt_db_ext_attr_tbl =
          (alert_globals 1 0 5 .APP_BT_ADV_OFF_CONN_ON).app_gatt_db_ext_attr_tbl) :=
  ⟨by decide,
    advert_started_sets_adv_on example_config (alert_globals 1 0 5 .APP_BT_ADV_OFF_CONN_ON)
      (advert_state_of (.other 4)) (by decide)⟩

/-! ## Connection status events -/

theorem app_bt_event_connect_connected (g : app_globals)
    (conn_status : wiced_bt_gatt_connection_status_t) (hconn : conn_status.connected = true) :
    app_bt_event_connect g (some conn_status) =
      { res := WICED_BT_GATT_SUCCESS,
        globals :=
          { g with bt_connection_id := conn_status.conn_id,
                   app_bt_adv_conn_state := .APP_BT_ADV_OFF_CONN_ON },
        calls :=
          [app_call.adv_led_update
            { g with bt_connection_id := conn_status.conn_id,
                     app_bt_adv_conn_state := .APP_BT_ADV_OFF_CONN_ON }] } := by
  simp [app_bt_event_connect, hconn]

theorem app_bt_event_connect_disconnected (g : app_globals)
    (conn_status : wiced_bt_gatt_connection_status_t) (hdisc : conn_status.connected = false) :
    app_bt_event_connect g (some conn_status) =
      { res := WICED_BT_GATT_SUCCESS,
        globals :=
          { g with bt_connection_id := 0,
                   app_bt_adv_conn_state := .APP_BT_ADV_ON_CONN_OFF },
        calls :=
          [app_call.wiced_bt_start_advertisements .BTM_BLE_ADVERT_UNDIRECTED_HIGH 0 none,
            app_call.ias_led_update
              { g with bt_connection_id := 0,
                       app_bt_adv_conn_state := .APP_BT_ADV_ON_CONN_OFF },
            app_call.adv_led_update
              { g with bt_connection_id := 0,
                       app_bt_adv_conn_state := .APP_BT_ADV_ON_CONN_OFF }] } := by
  simp [app_bt_event_connect, hdisc]

/-- C15. For any globals and a connection status with `connected` true and the
connection id `conn_id`, `app_bt_event_connect` sets `bt_connection_id` to
`conn_id` and the mode to `APP_BT_ADV_OFF_CONN_ON`, leaves the table, calls
`adv_led_update` only, so neither `wiced_bt_start_advertisements` nor
`ias_led_update`, and returns success. -/
theorem connected_event_records_connection (g : app_globals)
    (conn_status : wiced_bt_gatt_connection_status_t) (hconn : conn_status.connected = true) :
    (app_bt_event_connect g (some conn_status)).globals.bt_connection_id =
      conn_status.conn_id ∧
    (app_bt_event_connect g (some conn_status)).globals.app_bt_adv_conn_state =
      .APP_BT_ADV_OFF_CONN_ON ∧
    (app_bt_event_connect g (some conn_status)).globals.app_gatt_db_ext_attr_tbl =
      g.app_gatt_db_ext_attr_tbl ∧
    (app_bt_event_connect g (some conn_status)).calls =
      [app_call.adv_led_update (app_bt_event_connect g (some conn_status)).globals] ∧
    (app_bt_event_connect g (some conn_status)).calls.countP is_start_advertisements = 0 ∧
    (app_bt_event_connect g (some conn_status)).calls.countP is_ias_led_update = 0 ∧
    (app_bt_event_connect g (some conn_status)).res = WICED_BT_GATT_SUCCESS := by
  rw [app_bt_event_connect_connected g conn_status hconn]
  exact ⟨rfl, rfl, rfl, rfl, rfl, rfl, rfl⟩

/-- The theorem of C15 at a connection with the id 7, from the initial globals. -/
theorem connected_event_records_connection_witness :
    (connection_status_of 7 true).connected = true ∧
    ((app_bt_event_connect (app_initial [alert_record 1 0])
        (some (connection_status_of 7 true))).globals.bt_connection_id =
        (connection_status_of 7 true).conn_id ∧
      (app_bt_event_connect (app_initial [alert_record 1 0])
        (some (connection_status_of 7 true))).globals.app_bt_adv_conn_state =
        .APP_BT_ADV_OFF_CONN_ON ∧
      (app_bt_event_connect (app_initial [alert_record 1 0])
        (some (connection_status_of 7 true))).globals.app_gatt_db_ext_attr_tbl =
        (app_initial [alert_record 1 0]).app_gatt_db_ext_attr_tbl ∧
      (app_bt_event_connect (app_initial [alert_record 1 0])
        (some (connection_status_of 7 true))).calls =
        [app_call.adv_led_update (app_bt_event_connect (app_initial [alert_record 1 0])
          (some (connection_status_of 7 true))).globals] ∧
      (app_bt_event_connect (app_initial [alert_record 1 0])
        (some (connection_status_of 7 true))).calls.countP is_start_advertisements = 0 ∧
      (app_bt_event_connect (app_initial [alert_record 1 0])
        (some (connection_status_of 7 true))).calls.countP is_ias_led_update = 0 ∧
      (app_bt_event_connect (app_initial [alert_record 1 0])
        (some (connection_status_of 7 true))).res = WICED_BT_GATT_SUCCESS) :=
  ⟨rfl,
    connected_event_records_connection (app_initial [alert_record 1 0])
      (connection_status_of 7 true) rfl⟩

/-- C16. For any globals, with or without a connection, and a connection status
with `connected` false, `app_bt_event_connect` sets `bt_connection_id` to 0 and
the mode to `APP_BT_ADV_ON_CONN_OFF`, leaves the table, and returns success. It
calls, in this order, `wiced_bt_start_advertisements` with
`BTM_BLE_ADVERT_UNDIRECTED_HIGH`, the address type 0 and no address,
`ias_led_update` and `adv_led_update`: one request to start advertising and
one call of `ias_led_update`. -/
theorem disconnected_event_restarts_advertising (g : app_globals)
    (conn_status : wiced_bt_gatt_connection_status_t) (hdisc : conn_status.connected = false) :
    (app_bt_event_connect g (some conn_status)).globals.bt_connection_id = 0 ∧
    (app_bt_event_connect g (some conn_status)).globals.app_bt_adv_conn_state =
      .APP_BT_ADV_ON_CONN_OFF ∧
    (app_bt_event_connect g (some conn_status)).globals.app_gatt_db_ext_attr_tbl =
      g.app_gatt_db_ext_attr_tbl ∧
    (app_bt_event_connect g (some conn_status)).calls =
      [app_call.wiced_bt_start_advertisements .BTM_BLE_ADVERT_UNDIRECTED_HIGH 0 none,
        app_call.ias_led_update (app_bt_event_connect g (some conn_status)).globals,
        app_call.adv_led_update (app_bt_event_connect g (some conn_status)).globals] ∧
    (app_bt_event_connect g (some conn_status)).calls.countP is_start_advertisements = 1 ∧
    (app_bt_event_connect g (some conn_status)).calls.countP is_ias_led_update = 1 ∧
    (app_bt_event_connect g (some conn_status)).res = WICED_BT_GATT_SUCCESS := by
  rw [app_bt_event_connect_disconnected g conn_status hdisc]
  exact ⟨rfl, rfl, rfl, rfl, rfl, rfl, rfl⟩

/-- The theorem of C16 at a disconnection received with no connection present. -/
theorem disconnected_event_restarts_advertising_witness :
    (connection_status_of 7 false).connected = false ∧
    ((app_bt_event_connect (app_initial [alert_record 1 2])
        (some (connection_status_of 7 false))).globals.bt_connection_id = 0 ∧
      (app_bt_event_connect (app_initial [alert_record 1 2])
        (some (connection_status_of 7 false))).globals.app_bt_adv_conn_state =
        .APP_BT_ADV_ON_CONN_OFF ∧
      (app_bt_event_connect (app_initial [alert_record 1 2])
        (some (connection_status_of 7 false))).globals.app_gatt_db_ext_attr_tbl =
        (app_initial [alert_record 1 2]).app_gatt_db_ext_attr_tbl ∧
      (app_bt_event_connect (app_initial [alert_record 1 2])
        (some (connection_status_of 7 false))).calls =
        [app_call.wiced_bt_start_advertisements .BTM_BLE_ADVERT_UNDIRECTED_HIGH 0 none,
          app_call.ias_led_update (app_bt_event_connect (app_initial [alert_record 1 2])
            (some (connection_status_of 7 false))).globals,
          app_call.adv_led_update (app_bt_event_connect (app_initial [alert_record 1 2])
            (some (connection_status_of 7 false))).globals] ∧
      (app_bt_event_connect (app_initial [alert_record 1 2])
        (some (connection_status_of 7 false))).calls.countP is_start_advertisements = 1 ∧
      (app_bt_event_connect (app_initial [alert_record 1 2])
        (some (connection_status_of 7 false))).calls.countP is_ias_led_update = 1 ∧
      (app_bt_event_connect (app_initial [alert_record 1 2])
        (some (connection_status_of 7 false))).res = WICED_BT_GATT_SUCCESS) :=
  ⟨rfl,
    disconnected_event_restarts_advertising (app_initial [alert_record 1 2])
      (connection_status_of 7 false) rfl⟩

/-- C18. The function `app_bt_event_connect` returns success for every connection
status it is given; for a `NULL` pointer it returns `WICED_BT_GATT_ERROR`,
leaves the globals, so `bt_connection_id` and the mode, as they are, and makes
no call. -/
theorem connect_null_payload_is_error (g : app_globals) :
    (∀ conn_status : wiced_bt_gatt_connection_status_t,
      (app_bt_event_connect g (some conn_status)).res = WICED_BT_GATT_SUCCESS) ∧
    (app_bt_event_connect g none).res = WICED_BT_GATT_ERROR ∧
    (app_bt_event_connect g none).globals = g ∧
    (app_bt_event_connect g none).calls = [] := by
  refine ⟨?_, rfl, rfl, rfl⟩
  intro conn_status
  cases hc : conn_status.connected
  · rw [app_bt_event_connect_disconnected g conn_status hc]
  · rw [app_bt_event_connect_connected g conn_status hc]

/-- C17. Each transition of the state tracker makes exactly one call of
`adv_led_update`, as its last call, and the call sees the globals the
transition leaves behind, with the new mode: this holds for an
advertising-state-changed event and for `app_bt_event_connect` with a
connection status, connected or not. -/
theorem transition_refreshes_indicator_once (cfg : app_config) (g : app_globals)
    (p_event_data : wiced_bt_management_evt_data_t)
    (conn_status : wiced_bt_gatt_connection_status_t) :
    ((app_bt_management_callback cfg g .BTM_BLE_ADVERT_STATE_CHANGED_EVT
        p_event_data).calls.filter is_adv_led_update =
      [app_call.adv_led_update (app_bt_management_callback cfg g
        .BTM_BLE_ADVERT_STATE_CHANGED_EVT p_event_data).globals] ∧
     (app_bt_management_callback cfg g .BTM_BLE_ADVERT_STATE_CHANGED_EVT
        p_event_data).calls.getLast? =
      some (app_call.adv_led_update (app_bt_management_callback cfg g
        .BTM_BLE_ADVERT_STATE_CHANGED_EVT p_event_data).globals)) ∧
    ((app_bt_event_connect g (some conn_status)).calls.filter is_adv_led_update =
      [app_call.adv_led_update (app_bt_event_connect g (some conn_status)).globals] ∧
     (app_bt_event_connect g (some conn_status)).calls.getLast? =
      some (app_call.adv_led_update (app_bt_event_connect g (some conn_status)).globals)) := by
  constructor
  · exact ⟨rfl, rfl⟩
  · cases hc : conn_status.connected
    · rw [app_bt_event_connect_disconnected g conn_status hc]
      exact ⟨rfl, rfl⟩
    · rw [app_bt_event_connect_connected g conn_status hc]
      exact ⟨rfl, rfl⟩

/-! ## Events that are not handled -/

/-- C19. For an event other than `GATT_CONNECTION_STATUS_EVT` and
`GATT_ATTRIBUTE_REQUEST_EVT`, `app_gatt_event_callback` returns success and
changes nothing: the globals, so the table, `bt_connection_id` and the mode,
and the event data are as before and no call is made. -/
theorem unknown_gatt_event_is_ignored (g : app_globals) (code : Nat)
    (p_event_data : wiced_bt_gatt_event_data_t) :
    (app_gatt_event_callback g (.other code) p_event_data).res = WICED_BT_GATT_SUCCESS ∧
    (app_gatt_event_callback g (.other code) p_event_data).globals = g ∧
    (app_gatt_event_callback g (.other code) p_event_data).calls = [] ∧
    (app_gatt_event_callback g (.other code) p_event_data).p_event_data = p_event_data :=
  ⟨rfl, rfl, rfl, rfl⟩

/-- C20. For a request type other than read and write, `app_gatt_req_event` returns
`WICED_BT_GATT_ERROR`, leaves the globals, so the table, `bt_connection_id`
and the mode, and the request data as they are and makes no call; so does
`app_gatt_event_callback` for an attribute request event with such a type. -/
theorem unknown_request_type_is_error (g : app_globals) (conn_id code : Nat)
    (p_data : wiced_bt_gatt_request_data_t)
    (conn_status : wiced_bt_gatt_connection_status_t) :
    ((app_gatt_req_event g conn_id (.other code) p_data).res = WICED_BT_GATT_ERROR ∧
      (app_gatt_req_event g conn_id (.other code) p_data).globals = g ∧
      (app_gatt_req_event g conn_id (.other code) p_data).calls = [] ∧
      (app_gatt_req_event g conn_id (.other code) p_data).p_data = p_data) ∧
    ((app_gatt_event_callback g .GATT_ATTRIBUTE_REQUEST_EVT
        { connection_status := conn_status,
          attribute_request :=
            { conn_id := conn_id, request_type := .other code, data := p_data } }).res =
        WICED_BT_GATT_ERROR ∧
      (app_gatt_event_callback g .GATT_ATTRIBUTE_REQUEST_EVT
        { connection_status := conn_status,
          attribute_request :=
            { conn_id := conn_id, request_type := .other code, data := p_data } }).globals =
        g ∧
      (app_gatt_event_callback g .GATT_ATTRIBUTE_REQUEST_EVT
        { connection_status := conn_status,
          attribute_request :=
            { conn_id := conn_id, request_type := .other code, data := p_data } }).calls =
        []) :=
  ⟨⟨rfl, rfl, rfl, rfl⟩, ⟨rfl, rfl, rfl⟩⟩

/-! ## The scenario of the state tracker -/

/-- C12. From the initial globals, an advertising-state-changed event with a mode
other than `BTM_BLE_ADVERT_OFF` gives the mode `APP_BT_ADV_ON_CONN_OFF`; a
connected event after it gives `APP_BT_ADV_OFF_CONN_ON`, with the connection id
of the event; a disconnected event after that gives `APP_BT_ADV_ON_CONN_OFF`,
with the connection id 0, and among the calls made during it there is exactly
one of `wiced_bt_start_advertisements` and exactly one of `ias_led_update`. -/
theorem advertise_connect_disconnect_scenario (cfg : app_config)
    (tbl : List gatt_db_lookup_table_t) (started : wiced_bt_management_evt_data_t)
    (conn disc : wiced_bt_gatt_connection_status_t)
    (hstarted : started.ble_advert_state_changed ≠ .BTM_BLE_ADVERT_OFF)
    (hconn : conn.connected = true) (hdisc : disc.connected = false) :
    (app_initial tbl).app_bt_adv_conn_state = .APP_BT_ADV_OFF_CONN_OFF ∧
    (app_initial tbl).bt_connection_id = 0 ∧
    (app_bt_management_callback cfg (app_initial tbl) .BTM_BLE_ADVERT_STATE_CHANGED_EVT
      started).globals.app_bt_adv_conn_state = .APP_BT_ADV_ON_CONN_OFF ∧
    (app_bt_event_connect
      (app_bt_management_callback cfg (app_initial tbl) .BTM_BLE_ADVERT_STATE_CHANGED_EVT
        started).globals (some conn)).globals.app_bt_adv_conn_state =
      .APP_BT_ADV_OFF_CONN_ON ∧
    (app_bt_event_connect
      (app_bt_management_callback cfg (app_initial tbl) .BTM_BLE_ADVERT_STATE_CHANGED_EVT
        started).globals (some conn)).globals.bt_connection_id = conn.conn_id ∧
    (app_bt_event_connect
      (app_bt_event_connect
        (app_bt_management_callback cfg (app_initial tbl) .BTM_BLE_ADVERT_STATE_CHANGED_EVT
          started).globals (some conn)).globals (some disc)).globals.app_bt_adv_conn_state =
      .APP_BT_ADV_ON_CONN_OFF ∧
    (app_bt_event_connect
      (app_bt_event_connect
        (app_bt_management_callback cfg (app_initial tbl) .BTM_BLE_ADVERT_STATE_CHANGED_EVT
          started).globals (some conn)).globals (some disc)).globals.bt_connection_id = 0 ∧
    (app_bt_event_connect
      (app_bt_event_connect
        (app_bt_management_callback cfg (app_initial tbl) .BTM_BLE_ADVERT_STATE_CHANGED_EVT
          started).globals (some conn)).globals
      (some disc)).calls.countP is_start_advertisements = 1 ∧
    (app_bt_event_connect
      (app_bt_event_connect
        (app_bt_management_callback cfg (app_initial tbl) .BTM_BLE_ADVERT_STATE_CHANGED_EVT
          started).globals (some conn)).globals
      (some disc)).calls.countP is_ias_led_update = 1 := by
  rw [app_bt_management_callback_advert_on cfg _ started hstarted,
    app_bt_event_connect_connected _ conn hconn,
    app_bt_event_connect_disconnected _ disc hdisc]
  exact ⟨rfl, rfl, rfl, rfl, rfl, rfl, rfl, rfl, rfl⟩

/-- The theorem of C12 on the table with the alert level record, with the
connection id 7. -/
theorem advertise_connect_disconnect_scenario_witness :
    ((advert_state_of .BTM_BLE_ADVERT_UNDIRECTED_HIGH).ble_advert_state_changed ≠
        .BTM_BLE_ADVERT_OFF ∧
      (connection_status_of 7 true).connected = true ∧
      (connection_status_of 7 false).connected = false) ∧
    (app_bt_event_connect
      (app_bt_event_connect
        (app_bt_management_callback example_config (app_initial [alert_record 1 0])
          .BTM_BLE_ADVERT_STATE_CHANGED_EVT
          (advert_state_of .BTM_BLE_ADVERT_UNDIRECTED_HIGH)).globals
        (some (connection_status_of 7 true))).globals
      (some (connection_status_of 7 false))).calls.countP is_ias_led_update = 1 :=
  ⟨⟨by decide, rfl, rfl⟩,
    (advertise_connect_disconnect_scenario example_config [alert_record 1 0]
      (advert_state_of .BTM_BLE_ADVERT_UNDIRECTED_HIGH) (connection_status_of 7 true)
      (connection_status_of 7 false) (by decide) rfl rfl).2.2.2.2.2.2.2.2⟩

/-! ## The mode while a connection is present -/

theorem app_bt_write_handle_value_keeps_state (g : app_globals) (handle offset : Nat)
    (p_val : List Nat) (len : Nat) :
    (app_bt_write_handle_value g handle offset p_val len).globals.bt_connection_id =
      g.bt_connection_id ∧
    (app_bt_write_handle_value g handle offset p_val len).globals.app_bt_adv_conn_state =
      g.app_bt_adv_conn_state := by
  unfold app_bt_write_handle_value
  cases app_get_attribute g.app_gatt_db_ext_attr_tbl handle with
  | none => exact ⟨rfl, rfl⟩
  | some ir =>
    obtain ⟨i, r⟩ := ir
    by_cases hfit : (r.max_len : Int) - (offset : Int) ≥ (len : Int)
    · by_cases hh : handle = HDLC_IAS_ALERT_LEVEL_VALUE <;> simp [hfit, hh]
    · simp [hfit]

theorem app_bt_read_handle_value_globals (g : app_globals) (handle offset : Nat)
    (buff : List Nat) (p_len : Nat) :
    (app_bt_read_handle_value g handle offset buff p_len).globals = g := by
  unfold app_bt_read_handle_value
  cases app_get_attribute g.app_gatt_db_ext_attr_tbl handle with
  | none => rfl
  | some ir =>
    obtain ⟨i, r⟩ := ir
    by_cases ho : offset % 256 < r.max_len <;> simp [ho]

theorem app_gatt_req_event_keeps_state (g : app_globals) (conn_id : Nat)
    (type : wiced_bt_gatt_request_type_t) (p_data : wiced_bt_gatt_request_data_t) :
    (app_gatt_req_event g conn_id type p_data).globals.bt_connection_id =
      g.bt_connection_id ∧
    (app_gatt_req_event g conn_id type p_data).globals.app_bt_adv_conn_state =
      g.app_bt_adv_conn_state := by
  cases type with
  | GATTS_REQ_TYPE_READ =>
    show (app_bt_read_handle_value g _ _ _ _).globals.bt_connection_id = _ ∧
      (app_bt_read_handle_value g _ _ _ _).globals.app_bt_adv_conn_state = _
    rw [app_bt_read_handle_value_globals]
    exact ⟨rfl, rfl⟩
  | GATTS_REQ_TYPE_WRITE =>
    simp only [app_gatt_req_event]
    exact app_bt_write_handle_value_keeps_state g _ _ _ _
  | other code => exact ⟨rfl, rfl⟩

/-- One event keeps the property that a connection id other than 0 goes with the
mode `APP_BT_ADV_OFF_CONN_ON`, unless it reports that advertising has started
while a connection is present. -/
theorem app_step_keeps_conn_on (cfg : app_config) (g : app_globals) (e : stack_event)
    (hinv : g.bt_connection_id ≠ 0 → g.app_bt_adv_conn_state = .APP_BT_ADV_OFF_CONN_ON)
    (hadv : is_adv_started e = true → g.bt_connection_id = 0) :
    (app_step cfg g e).bt_connection_id ≠ 0 →
      (app_step cfg g e).app_bt_adv_conn_state = .APP_BT_ADV_OFF_CONN_ON := by
  cases e with
  | management event p_event_data =>
    cases event with
    | BTM_ENABLED_EVT =>
      simp only [app_step, app_bt_management_callback]
      by_cases hs : p_event_data.enabled_status = .WICED_BT_SUCCESS <;> simpa [hs] using hinv
    | BTM_BLE_ADVERT_STATE_CHANGED_EVT =>
      by_cases hoff : p_event_data.ble_advert_state_changed = .BTM_BLE_ADVERT_OFF
      · simp only [app_step, app_bt_management_callback_advert_off cfg g p_event_data hoff]
        intro hid
        simp only [if_neg hid]
      · have hid : g.bt_connection_id = 0 := hadv (by simp [is_adv_started, hoff])
        simp only [app_step, app_bt_management_callback_advert_on cfg g p_event_data hoff]
        intro hne
        exact absurd hid hne
    | other code => simpa [app_step, app_bt_management_callback] using hinv
  | gatt event p_event_data =>
    cases event with
    | GATT_CONNECTION_STATUS_EVT =>
      simp only [app_step, app_gatt_event_callback]
      cases hc : p_event_data.connection_status.connected
      · rw [app_bt_event_connect_disconnected g _ hc]
        intro hne
        exact absurd rfl hne
      · rw [app_bt_event_connect_connected g _ hc]
        intro _
        rfl
    | GATT_ATTRIBUTE_REQUEST_EVT =>
      simp only [app_step, app_gatt_event_callback]
      obtain ⟨h1, h2⟩ := app_gatt_req_event_keeps_state g
        p_event_data.attribute_request.conn_id p_event_data.attribute_request.request_type
        p_event_data.attribute_request.data
      rw [h1, h2]
      exact hinv
    | other code => simpa [app_step, app_gatt_event_callback] using hinv

theorem app_run_keeps_conn_on (cfg : app_config) (events : List stack_event) :
    ∀ g : app_globals,
      (g.bt_connection_id ≠ 0 → g.app_bt_adv_conn_state = .APP_BT_ADV_OFF_CONN_ON) →
      adv_started_only_unconnected cfg g events = true →
      (app_run cfg g events).bt_connection_id ≠ 0 →
      (app_run cfg g events).app_bt_adv_conn_state = .APP_BT_ADV_OFF_CONN_ON := by
  induction events with
  | nil => intro g hinv _; exact hinv
  | cons e rest ih =>
    intro g hinv hadv
    simp only [adv_started_only_unconnected, Bool.and_eq_true, Bool.or_eq_true,
      Bool.not_eq_true', decide_eq_true_eq] at hadv
    obtain ⟨hhere, hrest⟩ := hadv
    have hstep := app_step_keeps_conn_on cfg g e hinv (by
      intro hs
      rcases hhere with h | h
      · rw [hs] at h; exact Bool.noConfusion h
      · exact h)
    exact ih (app_step cfg g e) hstep hrest

/-- C11, counterexample. From the initial globals, a connected event with the
connection id 1 followed by an advertising-state-changed event with the mode
`BTM_BLE_ADVERT_UNDIRECTED_HIGH` leaves `bt_connection_id` at 1, so a
connection is present, and the mode at `APP_BT_ADV_ON_CONN_OFF`, not at
`APP_BT_ADV_OFF_CONN_ON`. -/
theorem advert_started_while_connected_gives_adv_on :
    (app_run example_config (app_initial [alert_record 1 0])
      [.gatt .GATT_CONNECTION_STATUS_EVT
          (gatt_event_data_of (connection_status_of 1 true) (.other 0)),
        .management .BTM_BLE_ADVERT_STATE_CHANGED_EVT
          (advert_state_of .BTM_BLE_ADVERT_UNDIRECTED_HIGH)]).bt_connection_id = 1 ∧
    (app_run example_config (app_initial [alert_record 1 0])
      [.gatt .GATT_CONNECTION_STATUS_EVT
          (gatt_event_data_of (connection_status_of 1 true) (.other 0)),
        .management .BTM_BLE_ADVERT_STATE_CHANGED_EVT
          (advert_state_of .BTM_BLE_ADVERT_UNDIRECTED_HIGH)]).bt_connection_id ≠ 0 ∧
    (app_run example_config (app_initial [alert_record 1 0])
      [.gatt .GATT_CONNECTION_STATUS_EVT
          (gatt_event_data_of (connection_status_of 1 true) (.other 0)),
        .management .BTM_BLE_ADVERT_STATE_CHANGED_EVT
          (advert_state_of .BTM_BLE_ADVERT_UNDIRECTED_HIGH)]).app_bt_adv_conn_state =
      .APP_BT_ADV_ON_CONN_OFF ∧
    (app_run example_config (app_initial [alert_record 1 0])
      [.gatt .GATT_CONNECTION_STATUS_EVT
          (gatt_event_data_of (connection_status_of 1 true) (.other 0)),
        .management .BTM_BLE_ADVERT_STATE_CHANGED_EVT
          (advert_state_of .BTM_BLE_ADVERT_UNDIRECTED_HIGH)]).app_bt_adv_conn_state ≠
      .APP_BT_ADV_OFF_CONN_ON := by
  decide

/-- C11, as amended. For every sequence of management and GATT events run from the
initial globals in which each event reporting that advertising has started
arrives while `bt_connection_id` is 0: when `bt_connection_id` is not 0
afterwards, the mode is `APP_BT_ADV_OFF_CONN_ON`. -/
theorem connection_present_implies_conn_on (cfg : app_config)
    (tbl : List gatt_db_lookup_table_t) (events : List stack_event)
    (hadv : adv_started_only_unconnected cfg (app_initial tbl) events = true)
    (hconn : (app_run cfg (app_initial tbl) events).bt_connection_id ≠ 0) :
    (app_run cfg (app_initial tbl) events).app_bt_adv_conn_state =
      .APP_BT_ADV_OFF_CONN_ON :=
  app_run_keeps_conn_on cfg events (app_initial tbl) (fun h => absurd rfl h) hadv hconn

/-- The theorem of C11, as amended, at the run of an advertising start, a
connection with the id 7, a write of the alert level and an advertising stop. -/
theorem connection_present_implies_conn_on_witness :
    (adv_started_only_unconnected example_config (app_initial [alert_record 1 0])
        [.management .BTM_BLE_ADVERT_STATE_CHANGED_EVT
            (advert_state_of .BTM_BLE_ADVERT_UNDIRECTED_HIGH),
          .gatt .GATT_CONNECTION_STATUS_EVT
            (gatt_event_data_of (connection_status_of 7 true) (.other 0)),
          .gatt .GATT_ATTRIBUTE_REQUEST_EVT
            (gatt_event_data_of (connection_status_of 7 true) .GATTS_REQ_TYPE_READ),
          .management .BTM_BLE_ADVERT_STATE_CHANGED_EVT
            (advert_state_of .BTM_BLE_ADVERT_OFF)] = true ∧
      (app_run example_config (app_initial [alert_record 1 0])
        [.management .BTM_BLE_ADVERT_STATE_CHANGED_EVT
            (advert_state_of .BTM_BLE_ADVERT_UNDIRECTED_HIGH),
          .gatt .GATT_CONNECTION_STATUS_EVT
            (gatt_event_data_of (connection_status_of 7 true) (.other 0)),
          .gatt .GATT_ATTRIBUTE_REQUEST_EVT
            (gatt_event_data_of (connection_status_of 7 true) .GATTS_REQ_TYPE_READ),
          .management .BTM_BLE_ADVERT_STATE_CHANGED_EVT
            (advert_state_of .BTM_BLE_ADVERT_OFF)]).bt_connection_id ≠ 0) ∧
    (app_run example_config (app_initial [alert_record 1 0])
      [.management .BTM_BLE_ADVERT_STATE_CHANGED_EVT
          (advert_state_of .BTM_BLE_ADVERT_UNDIRECTED_HIGH),
        .gatt .GATT_CONNECTION_STATUS_EVT
          (gatt_event_data_of (connection_status_of 7 true) (.other 0)),
        .gatt .GATT_ATTRIBUTE_REQUEST_EVT
          (gatt_event_data_of (connection_status_of 7 true) .GATTS_REQ_TYPE_READ),
        .management .BTM_BLE_ADVERT_STATE_CHANGED_EVT
          (advert_state_of .BTM_BLE_ADVERT_OFF)]).app_bt_adv_conn_state =
      .APP_BT_ADV_OFF_CONN_ON :=
  ⟨⟨by decide, by decide⟩,
    connection_present_implies_conn_on example_config [alert_record 1 0] _ (by decide)
      (by decide)⟩

/-! ## Propagation of the status -/

/-- C21. For an attribute request event, `app_gatt_event_callback` returns the
status of `app_bt_read_handle_value` when the request type is read, and that of
`app_bt_write_handle_value` when it is write, called on the globals with the
handle, the offset, the buffer and the length of the request; for a connection
status event it returns the status of `app_bt_event_connect` on the connection
status of the event. -/
theorem callback_passes_status_on (g : app_globals) (conn_id : Nat)
    (p_data : wiced_bt_gatt_request_data_t)
    (conn_status : wiced_bt_gatt_connection_status_t)
    (p_attr_req : wiced_bt_gatt_attribute_request_t) :
    (app_gatt_event_callback g .GATT_ATTRIBUTE_REQUEST_EVT
        { connection_status := conn_status,
          attribute_request :=
            { conn_id := conn_id, request_type := .GATTS_REQ_TYPE_READ, data := p_data } }).res =
      (app_bt_read_handle_value g p_data.read_req.handle p_data.read_req.offset
        p_data.read_req.p_val p_data.read_req.p_val_len).res ∧
    (app_gatt_event_callback g .GATT_ATTRIBUTE_REQUEST_EVT
        { connection_status := conn_status,
          attribute_request :=
            { conn_id := conn_id, request_type := .GATTS_REQ_TYPE_WRITE, data := p_data } }).res =
      (app_bt_write_handle_value g p_data.write_req.handle p_data.write_req.offset
        p_data.write_req.p_val p_data.write_req.val_len).res ∧
    (app_gatt_event_callback g .GATT_CONNECTION_STATUS_EVT
        { connection_status := conn_status, attribute_request := p_attr_req }).res =
      (app_bt_event_connect g (some conn_status)).res :=
  ⟨rfl, rfl, rfl⟩

/-! ## The management events other than the change of the advertising state -/

/-- C22. On `BTM_ENABLED_EVT` with the status success, `app_bt_management_callback`
makes exactly these calls, in this order: `wiced_bt_dev_read_local_addr`,
`app_user_interface_init`, and then the five calls of the initialization:
`wiced_bt_set_pairable_mode` with false,
`wiced_bt_ble_set_raw_advertisement_data` with the three elements (flags,
complete name of the configuration, appearance),
`wiced_bt_gatt_register` with `app_gatt_event_callback`,
`wiced_bt_gatt_db_init` with the database and its length, and
`wiced_bt_start_advertisements` with `BTM_BLE_ADVERT_UNDIRECTED_HIGH`, the
address type 0 and no address. With a status that is a failure it makes no
call. In both cases the globals, so `bt_connection_id` and the mode, are
unchanged and the callback returns success. -/
theorem enabled_event_initializes_in_order (cfg : app_config) (g : app_globals)
    (mode : wiced_bt_ble_advert_mode_t) (code : Nat) :
    ((app_bt_management_callback cfg g .BTM_ENABLED_EVT
        { enabled_status := .WICED_BT_SUCCESS, ble_advert_state_changed := mode }).calls =
      [app_call.wiced_bt_dev_read_local_addr,
        app_call.app_user_interface_init g,
        app_call.wiced_bt_set_pairable_mode false 0,
        app_call.wiced_bt_ble_set_raw_advertisement_data 3
          [{ advert_type := BTM_BLE_ADVERT_TYPE_FLAG, len := 1,
             p_data := [BTM_BLE_GENERAL_DISCOVERABLE_FLAG ||| BTM_BLE_BREDR_NOT_SUPPORTED] },
           { advert_type := BTM_BLE_ADVERT_TYPE_NAME_COMPLETE,
             len := cfg.app_gap_device_name_len, p_data := cfg.app_gap_device_name },
           { advert_type := BTM_BLE_ADVERT_TYPE_APPEARANCE, len := 2,
             p_data := [APPEARANCE_GENERIC_KEYRING % 256,
               APPEARANCE_GENERIC_KEYRING / 256 % 256] }],
        app_call.wiced_bt_gatt_register .app_gatt_event_callback,
        app_call.wiced_bt_gatt_db_init cfg.gatt_database cfg.gatt_database_len,
        app_call.wiced_bt_start_advertisements .BTM_BLE_ADVERT_UNDIRECTED_HIGH 0 none] ∧
     (app_bt_management_callback cfg g .BTM_ENABLED_EVT
        { enabled_status := .WICED_BT_SUCCESS, ble_advert_state_changed := mode }).globals = g ∧
     (app_bt_management_callback cfg g .BTM_ENABLED_EVT
        { enabled_status := .WICED_BT_SUCCESS, ble_advert_state_changed := mode }).status =
      .WICED_BT_SUCCESS) ∧
    ((app_bt_management_callback cfg g .BTM_ENABLED_EVT
        { enabled_status := .failure code, ble_advert_state_changed := mode }).calls = [] ∧
     (app_bt_management_callback cfg g .BTM_ENABLED_EVT
        { enabled_status := .failure code, ble_advert_state_changed := mode }).globals = g ∧
     (app_bt_management_callback cfg g .BTM_ENABLED_EVT
        { enabled_status := .failure code, ble_advert_state_changed := mode }).status =
      .WICED_BT_SUCCESS) :=
  ⟨⟨rfl, rfl, rfl⟩, ⟨rfl, rfl, rfl⟩⟩

/-- C23. The function `ble_app_set_advertisement_data` makes one call, of
`wiced_bt_ble_set_raw_advertisement_data`, with exactly three elements, in
this order: the flags, of length 1 and value `BTM_BLE_GENERAL_DISCOVERABLE_FLAG`
or-ed with `BTM_BLE_BREDR_NOT_SUPPORTED`, that is 6; the complete name, with
the length and the bytes of the device name of the configuration; the
appearance, of length 2, holding the low byte and then the high byte of
`APPEARANCE_GENERIC_KEYRING`. -/
theorem advertisement_data_has_three_elements (cfg : app_config) :
    ble_app_set_advertisement_data cfg =
      [app_call.wiced_bt_ble_set_raw_advertisement_data 3
        [{ advert_type := BTM_BLE_ADVERT_TYPE_FLAG, len := 1,
           p_data := [BTM_BLE_GENERAL_DISCOVERABLE_FLAG ||| BTM_BLE_BREDR_NOT_SUPPORTED] },
         { advert_type := BTM_BLE_ADVERT_TYPE_NAME_COMPLETE,
           len := cfg.app_gap_device_name_len, p_data := cfg.app_gap_device_name },
         { advert_type := BTM_BLE_ADVERT_TYPE_APPEARANCE, len := 2,
           p_data := [APPEARANCE_GENERIC_KEYRING % 256,
             APPEARANCE_GENERIC_KEYRING / 256 % 256] }]] ∧
    (BTM_BLE_GENERAL_DISCOVERABLE_FLAG ||| BTM_BLE_BREDR_NOT_SUPPORTED) = 6 ∧
    APPEARANCE_GENERIC_KEYRING = APPEARANCE_GENERIC_KEYRING % 256 +
      256 * (APPEARANCE_GENERIC_KEYRING / 256 % 256) :=
  ⟨rfl, by decide, by decide⟩

/-- C24. For a management event other than `BTM_ENABLED_EVT` and
`BTM_BLE_ADVERT_STATE_CHANGED_EVT`, `app_bt_management_callback` returns
success, leaves the globals, so `bt_connection_id`, the mode and the table, as
they are and makes no call; and it returns success for every event and every
event data. -/
theorem unhandled_management_event_is_ignored (cfg : app_config) (g : app_globals)
    (code : Nat) (p_event_data : wiced_bt_management_evt_data_t) :
    (app_bt_management_callback cfg g (.other code) p_event_data).status =
      .WICED_BT_SUCCESS ∧
    (app_bt_management_callback cfg g (.other code) p_event_data).globals = g ∧
    (app_bt_management_callback cfg g (.other code) p_event_data).calls = [] ∧
    (∀ (event : wiced_bt_management_evt_t) (data : wiced_bt_management_evt_data_t),
      (app_bt_management_callback cfg g event data).status = .WICED_BT_SUCCESS) := by
  refine ⟨rfl, rfl, rfl, ?_⟩
  intro event data
  cases event with
  | BTM_ENABLED_EVT =>
    unfold app_bt_management_callback
    by_cases hs : data.enabled_status = .WICED_BT_SUCCESS <;> simp [hs]
  | BTM_BLE_ADVERT_STATE_CHANGED_EVT => rfl
  | other c => rfl

/-! ## What a write changes -/

theorem set_of_getElem?_eq_some {α : Type} (l : List α) (i : Nat) (a : α)
    (h : l[i]? = some a) : l.set i a = l := by
  apply List.ext_getElem?
  intro j
  rw [List.getElem?_set]
  by_cases hij : i = j
  · subst hij
    have hlt : i < l.length := by
      by_contra hge
      rw [List.getElem?_eq_none (by omega)] at h
      exact Option.noConfusion h
    rw [if_pos rfl, if_pos hlt, h]
  · rw [if_neg hij]

theorem app_bt_write_handle_value_success (g : app_globals) (handle offset : Nat)
    (p_val : List Nat) (len : Nat)
    (hs : (app_bt_write_handle_value g handle offset p_val len).res = WICED_BT_GATT_SUCCESS) :
    ∃ i r, app_get_attribute g.app_gatt_db_ext_attr_tbl handle = some (i, r) ∧
      offset + len ≤ r.max_len := by
  cases hget : app_get_attribute g.app_gatt_db_ext_attr_tbl handle with
  | none =>
    simp [app_bt_write_handle_value, hget] at hs
  | some ir =>
    obtain ⟨i, r⟩ := ir
    refine ⟨i, r, rfl, ?_⟩
    by_contra hfit
    rw [app_bt_write_handle_value_res g handle offset p_val len i r hget, if_neg hfit] at hs
    exact wiced_bt_gatt_status_t.noConfusion hs

theorem app_bt_write_handle_value_table (g : app_globals) (handle offset : Nat)
    (p_val : List Nat) (len : Nat) :
    (app_bt_write_handle_value g handle offset p_val len).globals = g ∨
    ∃ i r, app_get_attribute g.app_gatt_db_ext_attr_tbl handle = some (i, r) ∧
      offset + len ≤ r.max_len ∧
      (app_bt_write_handle_value g handle offset p_val len).globals =
        { g with
          app_gatt_db_ext_attr_tbl :=
            g.app_gatt_db_ext_attr_tbl.set i
              { r with p_data := memcpy r.p_data offset p_val 0 len } } := by
  by_cases hs : (app_bt_write_handle_value g handle offset p_val len).res =
      WICED_BT_GATT_SUCCESS
  · obtain ⟨i, r, hget, hfit⟩ := app_bt_write_handle_value_success g handle offset p_val len hs
    exact Or.inr ⟨i, r, hget, hfit,
      (app_bt_write_handle_value_fits g handle offset p_val len i r hget hfit).2.1⟩
  · exact Or.inl (app_bt_write_handle_value_failed g handle offset p_val len hs).2.1

theorem getElem?_memcpy_outside (dst : List Nat) (d : Nat) (src : List Nat) (s n k : Nat)
    (hk : k ∉ memcpy_stores d n) : (memcpy dst d src s n)[k]? = dst[k]? := by
  rw [getElem?_memcpy]
  have h : ¬ (d ≤ k ∧ k < d + n ∧ k < dst.length) := by
    intro hin
    exact hk (List.mem_range'_1.2 ⟨hin.1, hin.2.1⟩)
  rw [if_neg h]

/-- C25. When the handles of the table are pairwise distinct and every record has
`cur_len ≤ max_len`, the same holds of the table that a call of
`app_bt_write_handle_value` leaves behind, whatever its arguments and its
result. -/
theorem write_keeps_table_invariant (g : app_globals) (handle offset : Nat)
    (p_val : List Nat) (len : Nat)
    (hdistinct : (g.app_gatt_db_ext_attr_tbl.map gatt_db_lookup_table_t.handle).Nodup)
    (hlen : ∀ r ∈ g.app_gatt_db_ext_attr_tbl, r.cur_len ≤ r.max_len) :
    ((app_bt_write_handle_value g handle offset p_val len).globals.app_gatt_db_ext_attr_tbl.map
        gatt_db_lookup_table_t.handle).Nodup ∧
    (∀ r ∈ (app_bt_write_handle_value g handle offset p_val len).globals.app_gatt_db_ext_attr_tbl,
      r.cur_len ≤ r.max_len) := by
  rcases app_bt_write_handle_value_table g handle offset p_val len with h | ⟨i, r, hget, -, h⟩
  · rw [h]; exact ⟨hdistinct, hlen⟩
  · rw [h]
    obtain ⟨hi, -, -⟩ := (app_get_attribute_eq_some _ handle i r).1 hget
    constructor
    · show ((g.app_gatt_db_ext_attr_tbl.set i _).map gatt_db_lookup_table_t.handle).Nodup
      rw [List.map_set]
      have hmap : (g.app_gatt_db_ext_attr_tbl.map gatt_db_lookup_table_t.handle)[i]? =
          some r.handle := by
        rw [List.getElem?_map, hi]; rfl
      rw [set_of_getElem?_eq_some _ i _ hmap]
      exact hdistinct
    · intro x hx
      rcases List.mem_or_eq_of_mem_set hx with hmem | heq
      · exact hlen x hmem
      · rw [heq]
        exact hlen r (List.mem_iff_getElem?.2 ⟨i, hi⟩)

/-- The theorem of C25 at a write of the alert level in the table with the two
records. -/
theorem write_keeps_table_invariant_witness :
    ((wide_globals.app_gatt_db_ext_attr_tbl.map gatt_db_lookup_table_t.handle).Nodup ∧
      ∀ r ∈ wide_globals.app_gatt_db_ext_attr_tbl, r.cur_len ≤ r.max_len) ∧
    (((app_bt_write_handle_value wide_globals 0x002A 0 [2] 1).globals.app_gatt_db_ext_attr_tbl.map
        gatt_db_lookup_table_t.handle).Nodup ∧
      (∀ r ∈ (app_bt_write_handle_value wide_globals 0x002A 0 [2]
          1).globals.app_gatt_db_ext_attr_tbl,
        r.cur_len ≤ r.max_len)) :=
  ⟨⟨by decide, by decide⟩,
    write_keeps_table_invariant wide_globals 0x002A 0 [2] 1 (by decide) (by decide)⟩

/-- C26. When `app_bt_write_handle_value` returns success, the record written is the
first of the table with the handle, at index `i`. The table keeps its length
and its entries at the other indices; the entry at `i` keeps its `handle`,
`max_len` and `cur_len` and the length of its buffer, and every byte of the
buffer at a position outside `offset .. offset + len - 1`. The globals
`bt_connection_id` and the mode are unchanged. -/
theorem successful_write_frame (g : app_globals) (handle offset : Nat)
    (p_val : List Nat) (len : Nat)
    (hs : (app_bt_write_handle_value g handle offset p_val len).res = WICED_BT_GATT_SUCCESS) :
    ∃ (i : Nat) (r r2 : gatt_db_lookup_table_t),
      (g.app_gatt_db_ext_attr_tbl[i]? = some r ∧ r.handle = handle ∧
        ∀ m, m < i → ∀ e : gatt_db_lookup_table_t,
          g.app_gatt_db_ext_attr_tbl[m]? = some e → e.handle ≠ handle) ∧
      (app_bt_write_handle_value g handle offset p_val len).globals.app_gatt_db_ext_attr_tbl.length
        = g.app_gatt_db_ext_attr_tbl.length ∧
      (∀ j, j ≠ i →
        (app_bt_write_handle_value g handle offset p_val len).globals.app_gatt_db_ext_attr_tbl[j]?
          = g.app_gatt_db_ext_attr_tbl[j]?) ∧
      (app_bt_write_handle_value g handle offset p_val len).globals.app_gatt_db_ext_attr_tbl[i]?
        = some r2 ∧
      r2.handle = r.handle ∧ r2.max_len = r.max_len ∧ r2.cur_len = r.cur_len ∧
      r2.p_data.length = r.p_data.length ∧
      (∀ k, ¬ (offset ≤ k ∧ k < offset + len) → r2.p_data[k]? = r.p_data[k]?) ∧
      (app_bt_write_handle_value g handle offset p_val len).globals.bt_connection_id =
        g.bt_connection_id ∧
      (app_bt_write_handle_value g handle offset p_val len).globals.app_bt_adv_conn_state =
        g.app_bt_adv_conn_state := by
  obtain ⟨i, r, hget, hfit⟩ := app_bt_write_handle_value_success g handle offset p_val len hs
  have hfirst := (app_get_attribute_eq_some _ handle i r).1 hget
  have hlt : i < g.app_gatt_db_ext_attr_tbl.length := by
    by_contra hge
    rw [List.getElem?_eq_none (by omega)] at hfirst
    exact Option.noConfusion hfirst.1
  rw [(app_bt_write_handle_value_fits g handle offset p_val len i r hget hfit).2.1]
  refine ⟨i, r, { r with p_data := memcpy r.p_data offset p_val 0 len }, hfirst, ?_, ?_, ?_,
    rfl, rfl, rfl, ?_, ?_, rfl, rfl⟩
  · exact List.length_set _ _ _
  · intro j hj
    exact List.getElem?_set_ne (fun h => hj h.symm)
  · show (g.app_gatt_db_ext_attr_tbl.set i _)[i]? = _
    rw [List.getElem?_set, if_pos rfl, if_pos hlt]
  · exact length_memcpy _ _ _ _ _
  · intro k hk
    exact getElem?_memcpy_outside _ _ _ _ _ _ (fun hin => hk (List.mem_range'_1.1 hin))

/-- The theorem of C26 at the write of `[7]` at offset 256 of the wide record. -/
theorem successful_write_frame_witness :
    (app_bt_write_handle_value wide_globals 3 256 [7] 1).res = WICED_BT_GATT_SUCCESS ∧
    ∃ (i : Nat) (r r2 : gatt_db_lookup_table_t),
      (wide_globals.app_gatt_db_ext_attr_tbl[i]? = some r ∧ r.handle = 3 ∧
        ∀ m, m < i → ∀ e : gatt_db_lookup_table_t,
          wide_globals.app_gatt_db_ext_attr_tbl[m]? = some e → e.handle ≠ 3) ∧
      (app_bt_write_handle_value wide_globals 3 256 [7] 1).globals.app_gatt_db_ext_attr_tbl.length
        = wide_globals.app_gatt_db_ext_attr_tbl.length ∧
      (∀ j, j ≠ i →
        (app_bt_write_handle_value wide_globals 3 256 [7] 1).globals.app_gatt_db_ext_attr_tbl[j]?
          = wide_globals.app_gatt_db_ext_attr_tbl[j]?) ∧
      (app_bt_write_handle_value wide_globals 3 256 [7] 1).globals.app_gatt_db_ext_attr_tbl[i]?
        = some r2 ∧
      r2.handle = r.handle ∧ r2.max_len = r.max_len ∧ r2.cur_len = r.cur_len ∧
      r2.p_data.length = r.p_data.length ∧
      (∀ k, ¬ (256 ≤ k ∧ k < 256 + 1) → r2.p_data[k]? = r.p_data[k]?) ∧
      (app_bt_write_handle_value wide_globals 3 256 [7] 1).globals.bt_connection_id =
        wide_globals.bt_connection_id ∧
      (app_bt_write_handle_value wide_globals 3 256 [7] 1).globals.app_bt_adv_conn_state =
        wide_globals.app_bt_adv_conn_state :=
  ⟨by decide, successful_write_frame wide_globals 3 256 [7] 1 (by decide)⟩

/-! ## The positions accessed stay within the capacity -/

theorem mem_of_app_get_attribute (tbl : List gatt_db_lookup_table_t) (handle i : Nat)
    (r : gatt_db_lookup_table_t) (hget : app_get_attribute tbl handle = some (i, r)) :
    r ∈ tbl :=
  List.mem_iff_getElem?.2 ⟨i, ((app_get_attribute_eq_some tbl handle i r).1 hget).1⟩

/-- C27. Assume the buffer of every record holds at least `max_len` bytes. Every
position that `app_bt_write_handle_value` stores to, and every position that
`app_bt_read_handle_value` loads from, is a position of the buffer of the
record that `app_get_attribute` finds, below its `max_len` and so within the
buffer. A write with an offset above `max_len` is not accepted: the
difference `max_len - offset` is negative, the write returns
`WICED_BT_GATT_INVALID_ATTR_LEN` and stores nothing; a write that does not
return success stores nothing. -/
theorem accesses_stay_below_max_len (g : app_globals) (handle offset len : Nat)
    (p_val : List Nat)
    (hbuf : ∀ r ∈ g.app_gatt_db_ext_attr_tbl, r.max_len ≤ r.p_data.length) :
    (∀ k ∈ app_bt_write_handle_value_stores g handle offset len,
      ∃ (i : Nat) (r : gatt_db_lookup_table_t),
        app_get_attribute g.app_gatt_db_ext_attr_tbl handle = some (i, r) ∧
        k < r.max_len ∧ k < r.p_data.length) ∧
    (∀ k ∈ app_bt_read_handle_value_loads g handle offset len,
      ∃ (i : Nat) (r : gatt_db_lookup_table_t),
        app_get_attribute g.app_gatt_db_ext_attr_tbl handle = some (i, r) ∧
        k < r.max_len ∧ k < r.p_data.length) ∧
    (∀ (i : Nat) (r : gatt_db_lookup_table_t),
      app_get_attribute g.app_gatt_db_ext_attr_tbl handle = some (i, r) →
      r.max_len < offset →
      (r.max_len : Int) - (offset : Int) < 0 ∧
      (app_bt_write_handle_value g handle offset p_val len).res =
        WICED_BT_GATT_INVALID_ATTR_LEN ∧
      app_bt_write_handle_value_stores g handle offset len = []) ∧
    ((app_bt_write_handle_value g handle offset p_val len).res ≠ WICED_BT_GATT_SUCCESS →
      app_bt_write_handle_value_stores g handle offset len = []) := by
  refine ⟨?_, ?_, ?_, ?_⟩
  · intro k hk
    unfold app_bt_write_handle_value_stores at hk
    cases hget : app_get_attribute g.app_gatt_db_ext_attr_tbl handle with
    | none => simp [hget] at hk
    | some ir =>
      obtain ⟨i, r⟩ := ir
      simp only [hget, write_fits_iff] at hk
      by_cases hfit : offset + len ≤ r.max_len
      · rw [if_pos hfit] at hk
        have hin := List.mem_range'_1.1 hk
        have hr := hbuf r (mem_of_app_get_attribute _ handle i r hget)
        exact ⟨i, r, rfl, by omega, by omega⟩
      · rw [if_neg hfit] at hk
        exact absurd hk (List.not_mem_nil k)
  · intro k hk
    unfold app_bt_read_handle_value_loads at hk
    cases hget : app_get_attribute g.app_gatt_db_ext_attr_tbl handle with
    | none => simp [hget] at hk
    | some ir =>
      obtain ⟨i, r⟩ := ir
      simp only [hget] at hk
      by_cases ho : offset % 256 < r.max_len
      · rw [if_pos ho, read_clamp len r.max_len (offset % 256) ho] at hk
        have hin := List.mem_range'_1.1 hk
        have hr := hbuf r (mem_of_app_get_attribute _ handle i r hget)
        exact ⟨i, r, rfl, by omega, by omega⟩
      · rw [if_neg ho] at hk
        exact absurd hk (List.not_mem_nil k)
  · intro i r hget hover
    have hfit : ¬ offset + len ≤ r.max_len := by omega
    refine ⟨by omega, ?_, ?_⟩
    · rw [app_bt_write_handle_value_res g handle offset p_val len i r hget, if_neg hfit]
    · unfold app_bt_write_handle_value_stores
      simp only [hget, write_fits_iff, if_neg hfit]
  · intro hfail
    unfold app_bt_write_handle_value_stores
    cases hget : app_get_attribute g.app_gatt_db_ext_attr_tbl handle with
    | none => rfl
    | some ir =>
      obtain ⟨i, r⟩ := ir
      have hfit : ¬ offset + len ≤ r.max_len := by
        intro hfit
        exact hfail (app_bt_write_handle_value_fits g handle offset p_val len i r hget hfit).1
      simp only [write_fits_iff, if_neg hfit]

/-- The theorem of C27 on the table with the two records, at the handle of the
wide record, the offset 300 and the length 2. -/
theorem accesses_stay_below_max_len_witness :
    (∀ r ∈ wide_globals.app_gatt_db_ext_attr_tbl, r.max_len ≤ r.p_data.length) ∧
    ((∀ k ∈ app_bt_write_handle_value_stores wide_globals 3 300 2,
      ∃ (i : Nat) (r : gatt_db_lookup_table_t),
        app_get_attribute wide_globals.app_gatt_db_ext_attr_tbl 3 = some (i, r) ∧
        k < r.max_len ∧ k < r.p_data.length) ∧
    (∀ k ∈ app_bt_read_handle_value_loads wide_globals 3 300 2,
      ∃ (i : Nat) (r : gatt_db_lookup_table_t),
        app_get_attribute wide_globals.app_gatt_db_ext_attr_tbl 3 = some (i, r) ∧
        k < r.max_len ∧ k < r.p_data.length) ∧
    (∀ (i : Nat) (r : gatt_db_lookup_table_t),
      app_get_attribute wide_globals.app_gatt_db_ext_attr_tbl 3 = some (i, r) →
      r.max_len < 300 →
      (r.max_len : Int) - ((300 : Nat) : Int) < 0 ∧
      (app_bt_write_handle_value wide_globals 3 300 [7, 8] 2).res =
        WICED_BT_GATT_INVALID_ATTR_LEN ∧
      app_bt_write_handle_value_stores wide_globals 3 300 2 = []) ∧
    ((app_bt_write_handle_value wide_globals 3 300 [7, 8] 2).res ≠ WICED_BT_GATT_SUCCESS →
      app_bt_write_handle_value_stores wide_globals 3 300 2 = [])) :=
  ⟨by
      intro r hr
      simp only [wide_globals, List.mem_cons, List.mem_singleton, List.not_mem_nil,
        or_false] at hr
      rcases hr with h | h
      · rw [h]; decide
      · rw [h]
        show 257 ≤ (1 :: List.replicate 256 0).length
        rw [List.length_cons, List.length_replicate],
    accesses_stay_below_max_len wide_globals 3 300 2 [7, 8] (by
      intro r hr
      simp only [wide_globals, List.mem_cons, List.mem_singleton, List.not_mem_nil,
        or_false] at hr
      rcases hr with h | h
      · rw [h]; decide
      · rw [h]
        show 257 ≤ (1 :: List.replicate 256 0).length
        rw [List.length_cons, List.length_replicate])⟩

/-! ## A read changes no state -/

/-- C30. For every handle, offset, buffer and length, `app_bt_read_handle_value`
leaves the globals, so the table with all its fields and bytes,
`bt_connection_id` and the mode, as they are and makes no call; when its
result is not success, the buffer and the length are as on entry. -/
theorem read_changes_no_state (g : app_globals) (handle offset : Nat)
    (buff : List Nat) (p_len : Nat) :
    (app_bt_read_handle_value g handle offset buff p_len).globals = g ∧
    (app_bt_read_handle_value g handle offset buff p_len).calls = [] ∧
    ((app_bt_read_handle_value g handle offset buff p_len).res ≠ WICED_BT_GATT_SUCCESS →
      (app_bt_read_handle_value g handle offset buff p_len).buff = buff ∧
      (app_bt_read_handle_value g handle offset buff p_len).p_len = p_len) := by
  cases hget : app_get_attribute g.app_gatt_db_ext_attr_tbl handle with
  | none =>
    simp [app_bt_read_handle_value, hget]
  | some ir =>
    obtain ⟨i, r⟩ := ir
    by_cases ho : offset % 256 < r.max_len
    · rw [app_bt_read_handle_value_found g handle offset buff p_len i r hget ho]
      exact ⟨rfl, rfl, fun h => absurd rfl h⟩
    · rw [app_bt_read_handle_value_beyond g handle offset buff p_len i r hget ho]
      exact ⟨rfl, rfl, fun _ => ⟨rfl, rfl⟩⟩

/-! ## The connection id while the mode is connected -/

/-- One event keeps the property that the mode `APP_BT_ADV_OFF_CONN_ON` goes with a
connection id other than 0, unless it reports a connection with the id 0. -/
theorem app_step_keeps_conn_id (cfg : app_config) (g : app_globals) (e : stack_event)
    (hinv : g.app_bt_adv_conn_state = .APP_BT_ADV_OFF_CONN_ON → g.bt_connection_id ≠ 0)
    (hid : is_connected_with_id_0 e = false) :
    (app_step cfg g e).app_bt_adv_conn_state = .APP_BT_ADV_OFF_CONN_ON →
      (app_step cfg g e).bt_connection_id ≠ 0 := by
  cases e with
  | management event p_event_data =>
    cases event with
    | BTM_ENABLED_EVT =>
      simp only [app_step, app_bt_management_callback]
      by_cases hs : p_event_data.enabled_status = .WICED_BT_SUCCESS <;> simpa [hs] using hinv
    | BTM_BLE_ADVERT_STATE_CHANGED_EVT =>
      by_cases hoff : p_event_data.ble_advert_state_changed = .BTM_BLE_ADVERT_OFF
      · simp only [app_step, app_bt_management_callback_advert_off cfg g p_event_data hoff]
        by_cases h0 : g.bt_connection_id = 0
        · rw [if_pos h0]
          intro hmode
          exact app_bt_adv_conn_mode_t.noConfusion hmode
        · intro _
          exact h0
      · simp only [app_step, app_bt_management_callback_advert_on cfg g p_event_data hoff]
        intro hmode
        exact app_bt_adv_conn_mode_t.noConfusion hmode
    | other code => simpa [app_step, app_bt_management_callback] using hinv
  | gatt event p_event_data =>
    cases event with
    | GATT_CONNECTION_STATUS_EVT =>
      simp only [app_step, app_gatt_event_callback]
      cases hc : p_event_data.connection_status.connected
      · rw [app_bt_event_connect_disconnected g _ hc]
        intro hmode
        exact app_bt_adv_conn_mode_t.noConfusion hmode
      · rw [app_bt_event_connect_connected g _ hc]
        intro _
        simpa [is_connected_with_id_0, hc] using hid
    | GATT_ATTRIBUTE_REQUEST_EVT =>
      simp only [app_step, app_gatt_event_callback]
      obtain ⟨h1, h2⟩ := app_gatt_req_event_keeps_state g
        p_event_data.attribute_request.conn_id p_event_data.attribute_request.request_type
        p_event_data.attribute_request.data
      rw [h1, h2]
      exact hinv
    | other code => simpa [app_step, app_gatt_event_callback] using hinv

theorem app_run_keeps_conn_id (cfg : app_config) (events : List stack_event) :
    ∀ g : app_globals,
      (g.app_bt_adv_conn_state = .APP_BT_ADV_OFF_CONN_ON → g.bt_connection_id ≠ 0) →
      connected_ids_nonzero events = true →
      (app_run cfg g events).app_bt_adv_conn_state = .APP_BT_ADV_OFF_CONN_ON →
      (app_run cfg g events).bt_connection_id ≠ 0 := by
  induction events with
  | nil => intro g hinv _; exact hinv
  | cons e rest ih =>
    intro g hinv hids
    simp only [connected_ids_nonzero, List.all_cons, Bool.and_eq_true,
      Bool.not_eq_true'] at hids
    exact ih (app_step cfg g e) (app_step_keeps_conn_id cfg g e hinv hids.1) hids.2

/-- C28. For every sequence of management and GATT events, run from the initial
globals, in which every connected event carries a connection id other than 0:
afterwards the mode is `APP_BT_ADV_OFF_CONN_ON` only if `bt_connection_id` is
not 0; in other words, when `bt_connection_id` is 0 the mode is
`APP_BT_ADV_OFF_CONN_OFF` or `APP_BT_ADV_ON_CONN_OFF`. -/
theorem conn_on_implies_connection_present (cfg : app_config)
    (tbl : List gatt_db_lookup_table_t) (events : List stack_event)
    (hids : connected_ids_nonzero events = true) :
    ((app_run cfg (app_initial tbl) events).app_bt_adv_conn_state = .APP_BT_ADV_OFF_CONN_ON →
      (app_run cfg (app_initial tbl) events).bt_connection_id ≠ 0) ∧
    ((app_run cfg (app_initial tbl) events).bt_connection_id = 0 →
      (app_run cfg (app_initial tbl) events).app_bt_adv_conn_state =
          .APP_BT_ADV_OFF_CONN_OFF ∨
        (app_run cfg (app_initial tbl) events).app_bt_adv_conn_state =
          .APP_BT_ADV_ON_CONN_OFF) := by
  have h := app_run_keeps_conn_id cfg events (app_initial tbl)
    (fun hmode => app_bt_adv_conn_mode_t.noConfusion hmode) hids
  refine ⟨h, ?_⟩
  intro h0
  cases hmode : (app_run cfg (app_initial tbl) events).app_bt_adv_conn_state with
  | APP_BT_ADV_OFF_CONN_OFF => exact Or.inl rfl
  | APP_BT_ADV_ON_CONN_OFF => exact Or.inr rfl
  | APP_BT_ADV_OFF_CONN_ON => exact absurd h0 (h hmode)

/-- The theorem of C28 at the run of a connection with the id 7, an advertising
start and a disconnection. -/
theorem conn_on_implies_connection_present_witness :
    connected_ids_nonzero
        [.gatt .GATT_CONNECTION_STATUS_EVT
            (gatt_event_data_of (connection_status_of 7 true) (.other 0)),
          .management .BTM_BLE_ADVERT_STATE_CHANGED_EVT
            (advert_state_of .BTM_BLE_ADVERT_UNDIRECTED_HIGH),
          .gatt .GATT_CONNECTION_STATUS_EVT
            (gatt_event_data_of (connection_status_of 7 false) (.other 0))] = true ∧
    (app_run example_config (app_initial [alert_record 1 0])
        [.gatt .GATT_CONNECTION_STATUS_EVT
            (gatt_event_data_of (connection_status_of 7 true) (.other 0)),
          .management .BTM_BLE_ADVERT_STATE_CHANGED_EVT
            (advert_state_of .BTM_BLE_ADVERT_UNDIRECTED_HIGH),
          .gatt .GATT_CONNECTION_STATUS_EVT
            (gatt_event_data_of (connection_status_of 7 false) (.other 0))]).bt_connection_id
          = 0 ∧
    ((app_run example_config (app_initial [alert_record 1 0])
        [.gatt .GATT_CONNECTION_STATUS_EVT
            (gatt_event_data_of (connection_status_of 7 true) (.other 0)),
          .management .BTM_BLE_ADVERT_STATE_CHANGED_EVT
            (advert_state_of .BTM_BLE_ADVERT_UNDIRECTED_HIGH),
          .gatt .GATT_CONNECTION_STATUS_EVT
            (gatt_event_data_of (connection_status_of 7 false) (.other 0))]).app_bt_adv_conn_state
          = .APP_BT_ADV_OFF_CONN_OFF ∨
      (app_run example_config (app_initial [alert_record 1 0])
        [.gatt .GATT_CONNECTION_STATUS_EVT
            (gatt_event_data_of (connection_status_of 7 true) (.other 0)),
          .management .BTM_BLE_ADVERT_STATE_CHANGED_EVT
            (advert_state_of .BTM_BLE_ADVERT_UNDIRECTED_HIGH),
          .gatt .GATT_CONNECTION_STATUS_EVT
            (gatt_event_data_of (connection_status_of 7 false) (.other 0))]).app_bt_adv_conn_state
          = .APP_BT_ADV_ON_CONN_OFF) :=
  ⟨by decide, by decide,
    (conn_on_implies_connection_present example_config [alert_record 1 0] _ (by decide)).2
      (by decide)⟩

/-! ## Attribute requests and the connection state -/

theorem app_bt_read_handle_value_of_table (g1 g2 : app_globals) (handle offset : Nat)
    (buff : List Nat) (p_len : Nat)
    (htbl : g1.app_gatt_db_ext_attr_tbl = g2.app_gatt_db_ext_attr_tbl) :
    (app_bt_read_handle_value g1 handle offset buff p_len).res =
      (app_bt_read_handle_value g2 handle offset buff p_len).res ∧
    (app_bt_read_handle_value g1 handle offset buff p_len).buff =
      (app_bt_read_handle_value g2 handle offset buff p_len).buff ∧
    (app_bt_read_handle_value g1 handle offset buff p_len).p_len =
      (app_bt_read_handle_value g2 handle offset buff p_len).p_len := by
  unfold app_bt_read_handle_value
  rw [htbl]
  cases app_get_attribute g2.app_gatt_db_ext_attr_tbl handle with
  | none => exact ⟨rfl, rfl, rfl⟩
  | some ir =>
    obtain ⟨i, r⟩ := ir
    by_cases ho : offset % 256 < r.max_len <;> simp [ho]

theorem app_bt_write_handle_value_of_table (g1 g2 : app_globals) (handle offset : Nat)
    (p_val : List Nat) (len : Nat)
    (htbl : g1.app_gatt_db_ext_attr_tbl = g2.app_gatt_db_ext_attr_tbl) :
    (app_bt_write_handle_value g1 handle offset p_val len).res =
      (app_bt_write_handle_value g2 handle offset p_val len).res ∧
    (app_bt_write_handle_value g1 handle offset p_val len).globals.app_gatt_db_ext_attr_tbl =
      (app_bt_write_handle_value g2 handle offset p_val len).globals.app_gatt_db_ext_attr_tbl := by
  unfold app_bt_write_handle_value
  rw [htbl]
  cases app_get_attribute g2.app_gatt_db_ext_attr_tbl handle with
  | none => exact ⟨rfl, htbl⟩
  | some ir =>
    obtain ⟨i, r⟩ := ir
    by_cases hfit : (r.max_len : Int) - (offset : Int) ≥ (len : Int)
    · by_cases hh : handle = HDLC_IAS_ALERT_LEVEL_VALUE <;> simp [hfit, hh]
    · simp [hfit, htbl]

/-- C29. Take two attribute request events with the same request type and request
data, so the same handle, offset, payload and length, run by
`app_gatt_event_callback` on globals with the same table; the connection id
of the request, `bt_connection_id` and the mode may differ. The two runs
return the same status, leave the same request data, so the same bytes read
and length, and the same table. An attribute request event changes neither
`bt_connection_id` nor the mode. -/
theorem attribute_request_ignores_connection_state (g1 g2 : app_globals)
    (conn_id1 conn_id2 : Nat) (type : wiced_bt_gatt_request_type_t)
    (p_data : wiced_bt_gatt_request_data_t)
    (status1 status2 : wiced_bt_gatt_connection_status_t)
    (htbl : g1.app_gatt_db_ext_attr_tbl = g2.app_gatt_db_ext_attr_tbl) :
    (app_gatt_event_callback g1 .GATT_ATTRIBUTE_REQUEST_EVT
        { connection_status := status1,
          attribute_request :=
            { conn_id := conn_id1, request_type := type, data := p_data } }).res =
      (app_gatt_event_callback g2 .GATT_ATTRIBUTE_REQUEST_EVT
        { connection_status := status2,
          attribute_request :=
            { conn_id := conn_id2, request_type := type, data := p_data } }).res ∧
    (app_gatt_event_callback g1 .GATT_ATTRIBUTE_REQUEST_EVT
        { connection_status := status1,
          attribute_request :=
            { conn_id := conn_id1, request_type := type,
              data := p_data } }).p_event_data.attribute_request.data =
      (app_gatt_event_callback g2 .GATT_ATTRIBUTE_REQUEST_EVT
        { connection_status := status2,
          attribute_request :=
            { conn_id := conn_id2, request_type := type,
              data := p_data } }).p_event_data.attribute_request.data ∧
    (app_gatt_event_callback g1 .GATT_ATTRIBUTE_REQUEST_EVT
        { connection_status := status1,
          attribute_request :=
            { conn_id := conn_id1, request_type := type,
              data := p_data } }).globals.app_gatt_db_ext_attr_tbl =
      (app_gatt_event_callback g2 .GATT_ATTRIBUTE_REQUEST_EVT
        { connection_status := status2,
          attribute_request :=
            { conn_id := conn_id2, request_type := type,
              data := p_data } }).globals.app_gatt_db_ext_attr_tbl ∧
    (app_gatt_event_callback g1 .GATT_ATTRIBUTE_REQUEST_EVT
        { connection_status := status1,
          attribute_request :=
            { conn_id := conn_id1, request_type := type,
              data := p_data } }).globals.bt_connection_id = g1.bt_connection_id ∧
    (app_gatt_event_callback g1 .GATT_ATTRIBUTE_REQUEST_EVT
        { connection_status := status1,
          attribute_request :=
            { conn_id := conn_id1, request_type := type,
              data := p_data } }).globals.app_bt_adv_conn_state = g1.app_bt_adv_conn_state := by
  have hkeep := app_gatt_req_event_keeps_state g1 conn_id1 type p_data
  refine ⟨?_, ?_, ?_, hkeep.1, hkeep.2⟩
  · cases type with
    | GATTS_REQ_TYPE_READ =>
      exact (app_bt_read_handle_value_of_table g1 g2 _ _ _ _ htbl).1
    | GATTS_REQ_TYPE_WRITE =>
      exact (app_bt_write_handle_value_of_table g1 g2 _ _ _ _ htbl).1
    | other code => rfl
  · cases type with
    | GATTS_REQ_TYPE_READ =>
      obtain ⟨-, hb, hl⟩ := app_bt_read_handle_value_of_table g1 g2 p_data.read_req.handle
        p_data.read_req.offset p_data.read_req.p_val p_data.read_req.p_val_len htbl
      simp only [app_gatt_event_callback, app_gatt_req_event, hb, hl]
    | GATTS_REQ_TYPE_WRITE => rfl
    | other code => rfl
  · cases type with
    | GATTS_REQ_TYPE_READ =>
      simp only [app_gatt_event_callback, app_gatt_req_event,
        app_bt_read_handle_value_globals]
      exact htbl
    | GATTS_REQ_TYPE_WRITE =>
      exact (app_bt_write_handle_value_of_table g1 g2 _ _ _ _ htbl).2
    | other code => exact htbl

/-- The theorem of C29 at a write of the alert level, received once with no
connection recorded and once with the connection 5. -/
theorem attribute_request_ignores_connection_state_witness :
    (alert_globals 1 0 0 .APP_BT_ADV_ON_CONN_OFF).app_gatt_db_ext_attr_tbl =
      (alert_globals 1 0 5 .APP_BT_ADV_OFF_CONN_ON).app_gatt_db_ext_attr_tbl ∧
    (app_gatt_event_callback (alert_globals 1 0 0 .APP_BT_ADV_ON_CONN_OFF)
        .GATT_ATTRIBUTE_REQUEST_EVT
        { connection_status := connection_status_of 0 false,
          attribute_request :=
            { conn_id := 9, request_type := .GATTS_REQ_TYPE_WRITE,
              data := write_request 0x002A 0 [2] } }).res =
      (app_gatt_event_callback (alert_globals 1 0 5 .APP_BT_ADV_OFF_CONN_ON)
        .GATT_ATTRIBUTE_REQUEST_EVT
        { connection_status := connection_status_of 5 true,
          attribute_request :=
            { conn_id := 5, request_type := .GATTS_REQ_TYPE_WRITE,
              data := write_request 0x002A 0 [2] } }).res :=
  ⟨rfl,
    (attribute_request_ignores_connection_state (alert_globals 1 0 0 .APP_BT_ADV_ON_CONN_OFF)
      (alert_globals 1 0 5 .APP_BT_ADV_OFF_CONN_ON) 9 5 .GATTS_REQ_TYPE_WRITE
      (write_request 0x002A 0 [2]) (connection_status_of 0 false)
      (connection_status_of 5 true) rfl).1⟩

end FindMe
